import Mathlib

/-!
Verification of the `ogc` WCS 1.0.0 / WMS 1.3.0 protocol layer.

This file is a shallow embedding of the request parsing, validation and
dispatch code of the repository (`ogc/core.py`, `ogc/wcs_request_1_0_0.py`,
`ogc/wms_request_1_3_0.py`, `ogc/ogc_common.py`, `ogc/__init__.py`,
`ogc/settings.py`, and the XML builders in `ogc/wcs_response_1_0_0.py` and
`ogc/wms_response_1_3_0.py`), together with theorems settling the claims
about that code.

Modelling conventions:
* Python `float` values are modelled as exact rationals (`ℚ`); decimal
  rendering of floats inside XML output is abstracted by the `toString` of `Rat`.
* A Python `dict` of KV arguments is an association list `Args`; a missing
  key raises `KeyError`, mirrored by the `PyErr.keyError` outcome.
* Raising an exception is modelled with `Except PyErr`; `PyErr`
  distinguishes the protocol exception `WCSException` from other Python
  exceptions (`AssertionError`, `KeyError`, ...), because the server layer
  treats them differently while the bare `except:` of the dispatcher catches all.
* The external `Layer` collaborator (`get_map`, `get_coverage`,
  `get_legend_graphic`) is a parameter of the dispatcher functions: an
  oracle from the coverage identifier and the raw args to a payload.
-/

/-- Does the pattern occur at the head of the list? (structural, so the
    kernel can evaluate it; the substring functions of the library recurse on
    byte positions and do not reduce). -/
def leadMatch : List Char → List Char → Bool
  | [], _ => true
  | _ :: _, [] => false
  | p :: ps, c :: cs => (p = c) && leadMatch ps cs

/-- Does the pattern occur as a contiguous sublist? -/
def hasSubList (pat : List Char) : List Char → Bool
  | [] => pat.isEmpty
  | c :: rest => leadMatch pat (c :: rest) || hasSubList pat rest

/-- The Python substring test `pat in s`. -/
def strContains (s pat : String) : Bool :=
  hasSubList pat.data s.data

/-- Python `s.startswith(pat)`. -/
def pyStartsWith (s pat : String) : Bool :=
  leadMatch pat.data s.data

/-- Python `s.lower()` (ASCII, as all inputs here are). -/
def pyLower (s : String) : String :=
  String.mk (s.data.map Char.toLower)

/-- Python `s.upper()`. -/
def pyUpper (s : String) : String :=
  String.mk (s.data.map Char.toUpper)

/-- Split a character list on a separator character; always returns at
    least one (possibly empty) segment, like Python `str.split(sep)`. -/
def splitChar (sep : Char) : List Char → List (List Char)
  | [] => [[]]
  | c :: rest =>
    let r := splitChar sep rest
    if c = sep then [] :: r
    else
      match r with
      | [] => [[c]]
      | h :: t => (c :: h) :: t

/-- Python `s.split(sep)` for a one-character separator (the only kind the
    source uses). -/
def pySplitOnChar (s : String) (sep : Char) : List String :=
  (splitChar sep s.data).map String.mk

/-- Python `s.replace(" ", "")`: drop every space. -/
def pyRemoveSpaces (s : String) : String :=
  String.mk (s.data.filter fun c => c ≠ ' ')

/-- Python `s.strip()`: drop leading and trailing whitespace. -/
def pyStrip (s : String) : String :=
  String.mk
    (((s.data.dropWhile Char.isWhitespace).reverse.dropWhile Char.isWhitespace).reverse)

/-- A single-quote character as a string (used when rendering Python reprs). -/
def squote : String := String.singleton (Char.ofNat 39)

/-- Python `str(x)` for an optional string, rendering `None` like Python does. -/
def pyStrOpt : Option String → String
  | none => "None"
  | some s => s

/-- Value of a list of decimal digit characters, `none` if empty or non-digit. -/
def decDigits? (l : List Char) : Option Nat :=
  if l.isEmpty then none
  else l.foldl
    (fun acc c => match acc with
      | none => none
      | some n => if c.isDigit then some (n * 10 + (c.toNat - 48)) else none)
    (some 0)

/-- Model of Python `float(s)` on the plain decimal forms that reach this
    code (optional sign, integer digits, optional fractional digits);
    scientific notation and the inf/nan spellings are not modelled, and the
    resulting value is an exact rational. -/
def pyFloat? (s : String) : Option ℚ :=
  let (neg, body) :=
    match s.data with
    | '-' :: r => (true, r)
    | '+' :: r => (false, r)
    | r => (false, r)
  let parts := splitChar '.' body
  let val? : Option ℚ :=
    match parts with
    | [a] =>
      match decDigits? a with
      | some n => some (n : ℚ)
      | none => none
    | [a, b] =>
      if a.isEmpty && b.isEmpty then none
      else
        let ai := if a.isEmpty then some 0 else decDigits? a
        let bi := if b.isEmpty then some 0 else decDigits? b
        match ai, bi with
        | some n, some f => some ((n : ℚ) + (f : ℚ) / (10 : ℚ) ^ b.length)
        | _, _ => none
    | _ => none
  match val? with
  | some v => some (if neg then -v else v)
  | none => none

/-- Model of Python `int(s)` on a string: optional sign followed by digits. -/
def pyInt? (s : String) : Option ℤ :=
  let (neg, body) :=
    match s.data with
    | '-' :: r => (true, r)
    | '+' :: r => (false, r)
    | r => (false, r)
  match decDigits? body with
  | some n => some (if neg then -(n : ℤ) else (n : ℤ))
  | none => none

/-- The floor of a rational, computed by floor division of numerator by
    denominator (`Int.floor` itself is hidden behind an instance the kernel
    will not unfold). -/
def ratFloor (q : ℚ) : ℤ := Int.fdiv q.num q.den

theorem ratFloor_intCast (z : ℤ) : ratFloor (z : ℚ) = z := by
  rw [ratFloor, Rat.num_intCast, Rat.den_intCast]
  exact Int.fdiv_one z

/-- Round-half-to-even to an integer, as the Python builtin `round` does. -/
def roundHalfEven (q : ℚ) : ℤ :=
  let n := ratFloor q
  let f := q - n
  if f < 1 / 2 then n
  else if 1 / 2 < f then n + 1
  else if n % 2 = 0 then n else n + 1

/-- Python `round(q, 9)`: round to nine decimal places, half to even. -/
def pyRound9 (q : ℚ) : ℚ :=
  (roundHalfEven (q * 10 ^ 9) : ℚ) / 10 ^ 9

theorem pyRound9_eq_self_of_grid (q : ℚ) (z : ℤ) (h : q * 10 ^ 9 = (z : ℚ)) :
    pyRound9 q = q := by
  have hz : roundHalfEven (q * 10 ^ 9) = z := by
    rw [h]
    unfold roundHalfEven
    rw [ratFloor_intCast]
    simp
  rw [pyRound9, hz, ← h]
  norm_num

/-- The protocol exception of `ogc/ogc_common.py` (`WCSException`), with the
    default code and locator of the source. -/
structure WCSException where
  exception_text : String := "Internal application error."
  exception_code : String := "NoApplicableCode"
  locator : String := ""
deriving DecidableEq, Repr

/-- The exceptions a handler can raise: the protocol exception, or one of the
    ordinary Python exceptions that the code can produce. -/
inductive PyErr where
  | wcs : WCSException → PyErr
  | assertionError : String → PyErr
  | keyError : String → PyErr
  | indexError : String → PyErr
  | valueError : String → PyErr
  | attributeError : String → PyErr
  | traitError : String → PyErr
deriving DecidableEq, Repr

/-- The KV argument map handed to the dispatcher (a Python `dict`). -/
def Args := List (String × String)

/-- `args[k]` — the value, or a `KeyError`. -/
def Args.get (a : Args) (k : String) : Except PyErr String :=
  match List.lookup k a with
  | some v => Except.ok v
  | none => Except.error (PyErr.keyError k)

/-- `k in args`. -/
def Args.hasKey (a : Args) (k : String) : Bool :=
  (List.lookup k a).isSome

/-- Python `str(args)` (dict repr). -/
def pyReprArgs (a : Args) : String :=
  "\x7b" ++
    String.intercalate ", "
      (a.map (fun kv => squote ++ kv.1 ++ squote ++ ": " ++ squote ++ kv.2 ++ squote)) ++
  "\x7d"

/-- `list.index` with Python semantics: `IndexError` when out of range,
    then the `ValueError` of `float(...)` when the element does not parse. -/
def pyFloatAt (l : List String) (i : Nat) : Except PyErr ℚ :=
  match l.get? i with
  | none => Except.error (PyErr.indexError "list index out of range")
  | some s =>
    match pyFloat? s with
    | some q => Except.ok q
    | none => Except.error (PyErr.valueError s)

/-- `int(args[k])`. -/
def pyIntArg (a : Args) (k : String) : Except PyErr ℤ := do
  let s ← a.get k
  match pyInt? s with
  | some n => pure n
  | none => throw (PyErr.valueError s)

/-- Model of the external `dateutil.parser.parse(...).isoformat()` call in
    `GetCoverage._load_from_kv`. The parsed value is never inspected by any
    property proved in this file, so the external parser is modelled as
    accepting its input and returning it unchanged. -/
def dateutilParseIso (s : String) : String := s

/-- Truthiness of an optional Python string (`None` and `""` are falsy). -/
def pyTruthyOptStr : Option String → Bool
  | none => false
  | some s => s ≠ ""

/-! ## Data model (`ogc/__init__.py`, `ogc/settings.py`, `ogc/ogc_common.py`) -/

/-- `ogc.Point` (lat/lon pair). -/
structure Point where
  lat : ℚ
  lon : ℚ
deriving DecidableEq, Repr

/-- `ogc.GridCoordinates`: sizes plus an affine geotransform list
    `[origin_x, pixel_w, row_rot, origin_y, col_rot, pixel_h]`.
    Python would raise `IndexError` on a geotransform shorter than six
    entries; the accessors below use a default of `0` there, and every
    theorem about them constrains the list to its six-element shape. -/
structure GridCoordinates where
  x_size : ℤ := 1296000
  y_size : ℤ := 648000
  geotransform : List ℚ := [-180, 1 / 3600, 0, -90, 0, 1 / 3600]
deriving DecidableEq, Repr

def GridCoordinates.min_lat (g : GridCoordinates) : ℚ := g.geotransform.getD 3 0

def GridCoordinates.max_lat (g : GridCoordinates) : ℚ :=
  g.geotransform.getD 3 0 + g.geotransform.getD 5 0 * (g.y_size : ℚ)

def GridCoordinates.min_lon (g : GridCoordinates) : ℚ := g.geotransform.getD 0 0

def GridCoordinates.max_lon (g : GridCoordinates) : ℚ :=
  g.geotransform.getD 0 0 + g.geotransform.getD 1 0 * (g.x_size : ℚ)

/-- The `LLC` point computed in `GridCoordinates.__init__`. -/
def GridCoordinates.LLC (g : GridCoordinates) : Point :=
  { lat := g.min_lat, lon := g.min_lon }

/-- The `URC` point computed in `GridCoordinates.__init__`. -/
def GridCoordinates.URC (g : GridCoordinates) : Point :=
  { lat := g.max_lat, lon := g.max_lon }

/-- A `datetime.datetime` as far as this layer inspects one: its
    `isoformat()` rendering, its `second` field and a day count used for
    day-difference arithmetic. -/
structure Timestamp where
  iso : String
  second : ℤ := 0
  epochDays : ℤ := 0
deriving DecidableEq, Repr

/-- `ogc.Layer`, restricted to the read-only attributes this protocol layer
    consumes (the behavioural methods `get_map`/`get_coverage`/
    `get_legend_graphic` are oracles passed to the dispatcher).
    `legend_graphic_width/height` are the computed properties
    `int(inches * dpi)` with the trait defaults `1.5 * 100` and `2.5 * 100`. -/
structure Layer where
  identifier : String
  title : String := "An OGC Layer"
  abstract : String := "This is an example OGC Layer"
  grid_coordinates : GridCoordinates := {}
  valid_times : Option (List Timestamp) := none
  all_times_valid : Bool := false
  legend_graphic_width : ℤ := 150
  legend_graphic_height : ℤ := 250
deriving DecidableEq, Repr

/-- `Layer.id_str` -/
def Layer.id_str (l : Layer) : String := l.identifier

/-- `wcs_request_1_0_0.Identifier`. -/
structure Identifier where
  value : Option String := none
deriving DecidableEq, Repr

/-- `Identifier.validate`: `assert bool(self.value) is True`. -/
def Identifier.validate (i : Identifier) : Except PyErr Unit :=
  if pyTruthyOptStr i.value then Except.ok ()
  else Except.error (PyErr.assertionError "WCS Coverage identifier validation error")

/-- `ogc_common.OutputFormat`. -/
structure OutputFormat where
  value : Option String := none
deriving DecidableEq, Repr

/-- `OutputFormat.validate`: `assert bool(self.value) is True`. -/
def OutputFormat.validate (f : OutputFormat) : Except PyErr Unit :=
  if pyTruthyOptStr f.value then Except.ok ()
  else Except.error (PyErr.assertionError "error validating output format")

/-- `ogc_common.BoundingBox` (the `crs` trait is never set on the request
    paths modelled here). -/
structure BoundingBox where
  lower_corner : ℚ × ℚ
  upper_corner : ℚ × ℚ
deriving DecidableEq, Repr

/-- `ogc_common.TemporalSubset`, restricted to the single field the KV
    parser fills. -/
structure TemporalSubset where
  time_position : Option String := none
deriving DecidableEq, Repr

/-! ### `ogc/settings.py` constants -/

/-- Keys of `settings.WMS_CRS`. -/
def WMS_CRS_keys : List String := ["epsg:3857", "epsg:4326", "crs:84"]

/-- Keys of `settings.WCS_CRS`. -/
def WCS_CRS_keys : List String := ["epsg:4326", "crs:84"]

/-- `settings.MAX_GRID_COORDS_REQUEST_SIZE = 1024 * 1024`. -/
def MAX_GRID_COORDS_REQUEST_SIZE : ℤ := 1024 * 1024

/-- `settings.USE_TIMES_LIST`. -/
def USE_TIMES_LIST : Bool := false

/-- `settings.PAST_DAYS_INCLUDED`. -/
def PAST_DAYS_INCLUDED : ℤ := 7

/-- `settings.WMS_LIMIT_LAYERS` (and, since `settings.WMS_LAYERS` does not
    exist, the class-body `try` in both `Capabilities` classes leaves
    `limit_layers = False` and `layer_subset = []`). -/
def WMS_LIMIT_LAYERS : Bool := false

/-- `settings.CONSTRAINTS` (= `PUBLIC_CONSTRAINT_STRING`). -/
def CONSTRAINTS : String := "PUBLIC"

/-! ## WCS 1.0.0 request parsers (`ogc/wcs_request_1_0_0.py`) -/

/-- `wcs_request_1_0_0.GetCapabilities` (KV-relevant fields). -/
structure WCSGetCapabilities where
  service : Option String := none
  accept_versions : List String := []
  accept_formats : List OutputFormat := []
deriving DecidableEq, Repr

/-- `GetCapabilities._load_from_kv` (WCS). -/
def WCSGetCapabilities.loadFromKV (args : Args) : Except PyErr WCSGetCapabilities := do
  let req ← args.get "request"
  if req = "GetCapabilities" then pure () else throw (PyErr.assertionError req)
  let svc ← args.get "service"
  pure { service := some (pyUpper svc) }

/-- `GetCapabilities.validate` (WCS). -/
def WCSGetCapabilities.validate (g : WCSGetCapabilities) : Except PyErr Unit := do
  if g.service = some "WCS" then pure ()
  else throw (PyErr.assertionError "WCS Request validation error: service should be WCS")
  let _ ← g.accept_formats.mapM OutputFormat.validate
  pure ()

/-- `wcs_request_1_0_0.DescribeCoverage`. -/
structure DescribeCoverage where
  service : Option String := none
  version : Option String := none
  identifiers : List Identifier := []
deriving DecidableEq, Repr

/-- `DescribeCoverage._load_from_kv`. -/
def DescribeCoverage.loadFromKV (args : Args) : Except PyErr DescribeCoverage := do
  let req ← args.get "request"
  if req = "DescribeCoverage" then pure () else throw (PyErr.assertionError req)
  let svc ← args.get "service"
  let ver ← args.get "version"
  let cov ← args.get "coverage"
  let ids := (pySplitOnChar cov ',').map
    (fun s => ({ value := some (pyStrip s) } : Identifier))
  pure { service := some (pyUpper svc), version := some ver, identifiers := ids }

/-- `DescribeCoverage.validate`. -/
def DescribeCoverage.validate (d : DescribeCoverage) : Except PyErr Unit := do
  if d.service = some "WCS" then pure ()
  else throw (PyErr.assertionError "WCS Request validation error: service should be WCS")
  let ver ← match d.version with
    | some v => pure v
    | none => throw (PyErr.attributeError "startswith")
  if pyStartsWith ver "1.0.0" then pure ()
  else throw (PyErr.assertionError "WCS Request validation error: version should be 1.0.0")
  let _ ← d.identifiers.mapM Identifier.validate
  pure ()

/-- `wcs_request_1_0_0.GetCoverage`. -/
structure GetCoverage where
  service : Option String := none
  version : Option String := none
  identifier : Option Identifier := none
  crs : Option String := none
  domain_subset_bbox : Option BoundingBox := none
  domain_subset_temporal : Option TemporalSubset := none
  output_format : Option OutputFormat := none
  width : ℤ := 0
  height : ℤ := 0
deriving DecidableEq, Repr

/-- `GetCoverage._load_from_kv`, line for line: request/service/version,
    identifier, optional `request_crs` then `crs` (each asserted against the
    WCS CRS set, stored lower-cased), the bbox split (spaces stripped), the
    CRS:84 → epsg:4326 rewrite with swapped corners, the output format, the
    optional single time (a comma raises the protocol exception with
    `InvalidParameterValue`/`TIME`), then height and width. -/
def GetCoverage.loadFromKV (args : Args) : Except PyErr GetCoverage := do
  let req ← args.get "request"
  if req = "GetCoverage" then pure () else throw (PyErr.assertionError req)
  let svc ← args.get "service"
  let ver ← args.get "version"
  let cov ← args.get "coverage"
  let crs1 : Option String ←
    if args.hasKey "request_crs" then do
      let c ← args.get "request_crs"
      if WCS_CRS_keys.contains (pyLower c) then pure (some (pyLower c))
      else throw (PyErr.assertionError ("SRS not supported [CRS]: " ++ c))
    else pure none
  let crs2 : Option String ←
    if args.hasKey "crs" then do
      let c ← args.get "crs"
      if WCS_CRS_keys.contains (pyLower c) then pure (some (pyLower c))
      else throw (PyErr.assertionError ("SRS not supported [CRS]: " ++ c))
    else pure crs1
  let bboxStr ← args.get "bbox"
  let bbox := pySplitOnChar (pyRemoveSpaces bboxStr) ','
  let b0 ← pyFloatAt bbox 0
  let b1 ← pyFloatAt bbox 1
  let b2 ← pyFloatAt bbox 2
  let b3 ← pyFloatAt bbox 3
  let plainBox : BoundingBox := { lower_corner := (b0, b1), upper_corner := (b2, b3) }
  -- CRS:84 is epsg:4326 with the order of lat-long specification switched
  let (crsFinal, finalBox) :=
    if crs2 = some "crs:84" then
      (some "epsg:4326",
       ({ lower_corner := (b1, b0), upper_corner := (b3, b2) } : BoundingBox))
    else (crs2, plainBox)
  let fmt ← args.get "format"
  let temporal : Option TemporalSubset ←
    if args.hasKey "time" then do
      let t ← args.get "time"
      if strContains t "," then
        throw (PyErr.wcs
          { exception_code := "InvalidParameterValue"
            locator := "TIME"
            exception_text := "Only one time value per request is supported. Please specify a single timestamp (e.g. TIME=2016-01-31T00:00:00.000Z)" })
      else
        pure (some { time_position := some (dateutilParseIso t) })
    else pure none
  let h ← pyIntArg args "height"
  let w ← pyIntArg args "width"
  pure { service := some (pyUpper svc)
         version := some ver
         identifier := some { value := some cov }
         crs := crsFinal
         domain_subset_bbox := some finalBox
         domain_subset_temporal := temporal
         output_format := some { value := some fmt }
         height := h
         width := w }

/-- The WCS bbox range test of `GetCoverage.validate`: some longitude with
    `|lon| > 361` or some latitude with `|lat| > 91`. -/
def wcsBBoxOutOfRange (bb : BoundingBox) : Bool :=
  ([bb.lower_corner.1, bb.upper_corner.1].any fun l => decide (|l| > (361 : ℚ))) ||
  ([bb.lower_corner.2, bb.upper_corner.2].any fun l => decide (|l| > (91 : ℚ)))

/-- `GetCoverage.validate`: the asserts in source order, then the bbox range
    check raising `InvalidParameterValue`/`BBOX`. -/
def GetCoverage.validate (g : GetCoverage) : Except PyErr Unit := do
  if g.service = some "WCS" then pure ()
  else throw (PyErr.assertionError "WCS Request validation error: service should be WCS")
  if g.identifier.isSome then pure ()
  else throw (PyErr.assertionError "WCS Request validation error: no coverage specified")
  let bb ← match g.domain_subset_bbox with
    | some b => pure b
    | none =>
      throw (PyErr.assertionError "WCS Request validation error: no bounding box specified")
  let _ ← match g.output_format with
    | some f => f.validate
    | none => throw (PyErr.attributeError "NoneType has no attribute validate")
  if g.height ≠ 0 then pure ()
  else throw (PyErr.assertionError "WCS Request validation error: no height specified")
  if g.width ≠ 0 then pure ()
  else throw (PyErr.assertionError "WCS Request validation error: no width specified")
  if wcsBBoxOutOfRange bb then
    throw (PyErr.wcs
      { exception_code := "InvalidParameterValue"
        locator := "BBOX"
        exception_text := "longitude must be between -180 and +180, latitude must be between -90 and +90" })
  else pure ()

/-! ## WMS 1.3.0 request parsers (`ogc/wms_request_1_3_0.py`) -/

/-- `wms_request_1_3_0.GetCapabilities` (KV-relevant fields). -/
structure WMSGetCapabilities where
  service : Option String := none
  accept_versions : List String := []
  accept_formats : List OutputFormat := []
deriving DecidableEq, Repr

/-- `GetCapabilities._load_from_kv` (WMS). -/
def WMSGetCapabilities.loadFromKV (args : Args) : Except PyErr WMSGetCapabilities := do
  let req ← args.get "request"
  if req = "GetCapabilities" then pure () else throw (PyErr.assertionError req)
  let svc ← args.get "service"
  pure { service := some (pyUpper svc) }

/-- `GetCapabilities.validate` (WMS). -/
def WMSGetCapabilities.validate (g : WMSGetCapabilities) : Except PyErr Unit := do
  if g.service = some "WMS" then pure ()
  else throw (PyErr.assertionError "WMS Request validation error: service should be WMS")
  let _ ← g.accept_formats.mapM OutputFormat.validate
  pure ()

/-- The allowed values of the `output_format` enum trait of `GetMap` and
    `GetLegendGraphic`. -/
def WMS_PNG_FORMATS : List String :=
  ["image/png", "image/png; mode=8bit", "image/png;mode=8-bit"]

/-- `wms_request_1_3_0.GetMap`. -/
structure GetMap where
  service : Option String := none
  version : Option String := none
  layer : Option Identifier := none
  crs : Option String := none
  bbox : Option BoundingBox := none
  width : ℤ := 0
  height : ℤ := 0
  time : Option String := none
  output_format : Option String := none
deriving DecidableEq, Repr

/-- `GetMap._load_from_kv`: the request-name assert compares lower-cased;
    a comma in `layers` or in `time` is a plain `AssertionError`; the bbox
    is split without stripping spaces; the CRS:84 swap mirrors the WCS one;
    assigning a `format` outside the enum raises a trait error. -/
def GetMap.loadFromKV (args : Args) : Except PyErr GetMap := do
  let req ← args.get "request"
  if pyLower req = "getmap" then pure () else throw (PyErr.assertionError req)
  let svc ← args.get "service"
  let ver ← args.get "version"
  let lyr ← args.get "layers"
  if strContains lyr "," then
    throw (PyErr.assertionError "Only one layer supported at a time.")
  else pure ()
  let crs0 : Option String ←
    if args.hasKey "crs" then do
      let c ← args.get "crs"
      if WMS_CRS_keys.contains (pyLower c) then pure (some (pyLower c))
      else throw (PyErr.assertionError ("SRS not supported [CRS]: " ++ c))
    else pure none
  let bboxStr ← args.get "bbox"
  let bbox := pySplitOnChar bboxStr ','
  let b0 ← pyFloatAt bbox 0
  let b1 ← pyFloatAt bbox 1
  let b2 ← pyFloatAt bbox 2
  let b3 ← pyFloatAt bbox 3
  let plainBox : BoundingBox := { lower_corner := (b0, b1), upper_corner := (b2, b3) }
  -- CRS:84 is epsg:4326 with the order of lat-long specification shifted
  let (crsFinal, finalBox) :=
    if crs0 = some "crs:84" then
      (some "epsg:4326",
       ({ lower_corner := (b1, b0), upper_corner := (b3, b2) } : BoundingBox))
    else (crs0, plainBox)
  let time0 : Option String ←
    if args.hasKey "time" then do
      let t ← args.get "time"
      if strContains t "," then
        throw (PyErr.assertionError "error loading time from request")
      else pure (some t)
    else pure none
  let fmt0 : Option String ←
    if args.hasKey "format" then do
      let f ← args.get "format"
      if WMS_PNG_FORMATS.contains f then pure (some f)
      else throw (PyErr.traitError f)
    else pure none
  let h ← pyIntArg args "height"
  let w ← pyIntArg args "width"
  pure { service := some (pyUpper svc)
         version := some ver
         layer := some { value := some lyr }
         crs := crsFinal
         bbox := some finalBox
         width := w
         height := h
         time := time0
         output_format := fmt0 }

/-- The Web-Mercator magnitude bound of `GetMap.validate`. -/
def WMS_BBOX_BOUND : ℚ := 20037508342789244 / 10 ^ 9

/-- The WMS bbox range test of `GetMap.validate`: some coordinate whose
    value rounded to nine decimals has magnitude beyond the bound. -/
def wmsBBoxOutOfRange (bb : BoundingBox) : Bool :=
  [bb.lower_corner.1, bb.upper_corner.1, bb.lower_corner.2, bb.upper_corner.2].any
    fun x => decide (|pyRound9 x| > WMS_BBOX_BOUND)

/-- `GetMap.validate`: the asserts in source order, then the bbox range
    check raising `InvalidParameterValue`/`BBOX`. -/
def GetMap.validate (m : GetMap) : Except PyErr Unit := do
  if m.service = some "WMS" then pure ()
  else throw (PyErr.assertionError "WMS Request validation error: service should be WMS")
  if m.layer.isSome then pure ()
  else throw (PyErr.assertionError "WMS Request validation error: no coverage specified")
  let bb ← match m.bbox with
    | some b => pure b
    | none =>
      throw (PyErr.assertionError "WMS Request validation error: no bounding box specified")
  if m.output_format.isSome then pure ()
  else throw (PyErr.assertionError "WMS Request validation error: no output format specified")
  if m.height ≠ 0 then pure ()
  else throw (PyErr.assertionError "WMS Request validation error: no height specified")
  if m.width ≠ 0 then pure ()
  else throw (PyErr.assertionError "WMS Request validation error: no width specified")
  if wmsBBoxOutOfRange bb then
    throw (PyErr.wcs
      { exception_code := "InvalidParameterValue"
        locator := "BBOX"
        exception_text := "minx,miny,maxx,maxy must all be between -20037508.342789244 and +20037508.342789244" })
  else pure ()

/-- `wms_request_1_3_0.GetLegendGraphic`. -/
structure GetLegendGraphic where
  service : Option String := none
  version : Option String := none
  output_format : Option String := none
  layer : Option Identifier := none
  crs : Option String := none
deriving DecidableEq, Repr

/-- `GetLegendGraphic._load_from_kv`: note the request-name assert compares
    the exact string `"GetLegendGraphic"`, not a lower-cased one. -/
def GetLegendGraphic.loadFromKV (args : Args) : Except PyErr GetLegendGraphic := do
  let req ← args.get "request"
  if req = "GetLegendGraphic" then pure () else throw (PyErr.assertionError req)
  let svc ← args.get "service"
  let lyr ← args.get "layer"
  if strContains lyr "," then
    throw (PyErr.assertionError "Only one layer supported at a time.")
  else pure ()
  pure { service := some (pyUpper svc), layer := some { value := some lyr } }

/-- `GetLegendGraphic.validate`. -/
def GetLegendGraphic.validate (g : GetLegendGraphic) : Except PyErr Unit := do
  if g.service = some "WMS" then pure ()
  else throw (PyErr.assertionError "WMS Request validation error: service should be WMS")
  if g.layer.isSome then pure ()
  else throw (PyErr.assertionError "WMS Request validation error: no coverage specified")
  pure ()

/-! ## Coverage records and XML builders
(`ogc/wcs_response_1_0_0.py`, `ogc/wms_response_1_3_0.py`)

Python floats inside the XML are rendered through the `toString` of `Rat`
(decimal float formatting is not modelled); none of the theorems below
inspect these strings. -/

/-- Decimal rendering of a modelled float. -/
def qstr (q : ℚ) : String := toString q

/-- `wcs_response_1_0_0.Coverage` as constructed in `OGC.__init__`
    (explicit `layer`, `title`, `abstract`, `identifier`; the remaining
    traits take their layer-derived defaults, captured by the accessor
    functions below). -/
structure Coverage where
  layer : Layer
  title : String
  abstract : String
  identifier : String
deriving DecidableEq, Repr

/-- `Coverage.grid_coordinates` default: the grid of the layer. -/
def Coverage.grid_coordinates (c : Coverage) : GridCoordinates :=
  c.layer.grid_coordinates

/-- `Coverage._wgs84_bounding_box_lower_corner_lat_lon_default` (the layer
    is always present on the coverages of the dispatcher, so the `crs_extents`
    fallback of the `try`/`except` of the source is not taken). -/
def Coverage.wgs84_bounding_box_lower_corner_lat_lon (c : Coverage) : ℚ × ℚ :=
  (c.layer.grid_coordinates.LLC.lat, c.layer.grid_coordinates.LLC.lon)

/-- `Coverage._wgs84_bounding_box_upper_corner_lat_lon_default`. -/
def Coverage.wgs84_bounding_box_upper_corner_lat_lon (c : Coverage) : ℚ × ℚ :=
  (c.layer.grid_coordinates.URC.lat, c.layer.grid_coordinates.URC.lon)

/-- The temporal-domain fragment of `CoverageDescription.to_xml`
    (`datetime.min`/`datetime.max` are inlined as Python renders them). -/
def coverageTemporalDomainXml (c : Coverage) : String :=
  if c.layer.all_times_valid then
    "            <wcs:temporalDomain>\n" ++
    "                <gml:timePeriod>\n" ++
    "                    <gml:beginPosition>0001-01-01 00:00:00</gml:beginPosition>" ++
    "                    <gml:endPosition>9999-12-31 23:59:59.999999</gml:endPosition>" ++
    "                </gml:timePeriod>\n" ++
    "            </wcs:temporalDomain>\n"
  else
    match c.layer.valid_times with
    | some ts =>
      if ts.length > 0 then
        "            <wcs:temporalDomain>\n" ++
        String.join (ts.map fun t =>
          "                <gml:timePosition>" ++ t.iso ++ "</gml:timePosition>\n") ++
        "            </wcs:temporalDomain>\n"
      else ""
    | none => ""

/-- One `<wcs:CoverageOffering>` entry of `CoverageDescription.to_xml`.
    The wgs84 corner tuples are always two-element (hence truthy) tuples,
    so the `if` of the source around the `lonLatEnvelope` always fires. -/
def coverageOfferingXml (c : Coverage) : String :=
  let low := c.wgs84_bounding_box_lower_corner_lat_lon
  let up := c.wgs84_bounding_box_upper_corner_lat_lon
  let g := c.grid_coordinates
  "    <wcs:CoverageOffering>" ++
  (if c.identifier ≠ "" then
    "        <wcs:name>" ++ c.identifier ++ "</wcs:name>\n" else "") ++
  (if c.title ≠ "" then
    "        <wcs:label>" ++ c.title ++ "</wcs:label>\n" else "") ++
  (if c.abstract ≠ "" then
    "        <wcs:description>" ++ c.abstract ++ "</wcs:description>\n" else "") ++
  "            <wcs:lonLatEnvelope srsName=\"urn:ogc:def:crs:OGC:1.3:CRS84\">\n" ++
  "                <gml:pos>" ++ qstr low.2 ++ " " ++ qstr low.1 ++ "</gml:pos>\n" ++
  "                <gml:pos>" ++ qstr up.2 ++ " " ++ qstr up.1 ++ "</gml:pos>\n" ++
  "            </wcs:lonLatEnvelope>" ++
  "        <wcs:domainSet>\n" ++
  "            <wcs:spatialDomain>\n" ++
  "                <gml:Envelope srsName=\"EPSG:4326\">\n" ++
  "                    <gml:pos>" ++ qstr low.2 ++ " " ++ qstr low.1 ++ "</gml:pos>\n" ++
  "            <gml:pos>" ++ qstr up.2 ++ " " ++ qstr up.1 ++ "</gml:pos>\n" ++
  "                </gml:Envelope>\n" ++
  "                <gml:RectifiedGrid dimension=\"2\" srsName=\"EPSG:4326\">\n" ++
  "                  <gml:limits>\n" ++
  "                    <gml:GridEnvelope>\n" ++
  "                      <gml:low>0 0</gml:low>\n" ++
  "                      <gml:high>" ++ toString g.x_size ++ " " ++ toString g.y_size ++
    "</gml:high>\n" ++
  "                    </gml:GridEnvelope>\n" ++
  "                  </gml:limits>\n" ++
  "                  <gml:axisName>x</gml:axisName>\n" ++
  "                  <gml:axisName>y</gml:axisName>\n" ++
  "                  <gml:origin>\n" ++
  "                    <gml:pos>" ++ qstr (g.geotransform.getD 0 0) ++ " " ++
    qstr (g.geotransform.getD 3 0) ++ "</gml:pos>\n" ++
  "                  </gml:origin>\n" ++
  "                  <gml:offsetVector>" ++ qstr (g.geotransform.getD 1 0) ++ " " ++
    qstr (g.geotransform.getD 2 0) ++ "</gml:offsetVector>\n" ++
  "                  <gml:offsetVector>" ++ qstr (g.geotransform.getD 4 0) ++ " " ++
    qstr (g.geotransform.getD 5 0) ++ "</gml:offsetVector>\n" ++
  "                </gml:RectifiedGrid>\n" ++
  "            </wcs:spatialDomain>\n" ++
  "            " ++ coverageTemporalDomainXml c ++ "\n" ++
  "        </wcs:domainSet>\n" ++
  "        <wcs:rangeSet>\n" ++
  "          <wcs:RangeSet>\n" ++
  "            <wcs:name>" ++ c.identifier ++ "</wcs:name>\n" ++
  "            <wcs:label>" ++ c.title ++ "</wcs:label>\n" ++
  "            <wcs:axisDescription>\n" ++
  "              <wcs:AxisDescription>\n" ++
  "                <wcs:name>Band</wcs:name>\n" ++
  "                <wcs:label>Band</wcs:label>\n" ++
  "                <wcs:values>\n" ++
  "                  <wcs:singleValue>1</wcs:singleValue>\n" ++
  "                </wcs:values>\n" ++
  "              </wcs:AxisDescription>\n" ++
  "            </wcs:axisDescription>\n" ++
  "          </wcs:RangeSet>\n" ++
  "        </wcs:rangeSet>\n" ++
  "        <wcs:supportedCRSs>\n" ++
  String.intercalate "\n"
    (WCS_CRS_keys.map fun epsg =>
      "            <wcs:requestResponseCRSs>" ++ epsg.toUpper ++
      "</wcs:requestResponseCRSs>") ++
  "\n        </wcs:supportedCRSs>\n\n" ++
  "        <wcs:supportedFormats nativeFormat=\"GeoTIFF\">\n" ++
  "          <wcs:formats>GeoTIFF</wcs:formats>\n" ++
  "        </wcs:supportedFormats>\n" ++
  "  </wcs:CoverageOffering>\n"

/-- `CoverageDescription.to_xml`. -/
def coverageDescriptionXml (covs : List Coverage) : String :=
  "<?xml version=\"1.0\" encoding=\"UTF-8\"?>\n" ++
  "<wcs:CoverageDescription xmlns:wcs=\"http://www.opengis.net/wcs\"\n" ++
  "xmlns:xlink=\"http://www.w3.org/1999/xlink\"\n" ++
  "xmlns:ogc=\"http://www.opengis.net/ogc\"\n" ++
  "xmlns:ows=\"http://www.opengis.net/ows/1.1\"\n" ++
  "xmlns:gml=\"http://www.opengis.net/gml\"\n" ++
  "xmlns:xsi=\"http://www.w3.org/2001/XMLSchema-instance\"\n" ++
  "xsi:schemaLocation=\"http://www.opengis.net/wcs http://schemas.opengis.net/wcs/1.0.0/describeCoverage.xsd\"\n" ++
  "version=\"1.0.0\">\n" ++
  String.join (covs.map coverageOfferingXml) ++
  "</wcs:CoverageDescription>\n"

/-- `wcs_response_1_0_0.Capabilities` state (the fields `OGC.__init__`
    fills; `version` is the constant `"1.0.0"`). -/
structure WcsCapabilities where
  coverages : List Coverage
  base_url : String
  service_title : String
  service_abstract : String
deriving DecidableEq, Repr

/-- `Capabilities.service` (WCS). -/
def WcsCapabilities.serviceXml (c : WcsCapabilities) : String :=
  "    <wcs:Service>\n" ++
  "        <wcs:name>" ++ c.service_title ++ "</wcs:name>\n" ++
  "        <wcs:label>" ++ c.service_title ++ "</wcs:label>\n" ++
  "        <wcs:fees>UNAVAILABLE</wcs:fees>\n" ++
  "        <wcs:accessConstraints>" ++ CONSTRAINTS ++ "</wcs:accessConstraints>\n" ++
  "    </wcs:Service>\n"

/-- `Capabilities.capability` (WCS). -/
def WcsCapabilities.capabilityXml (c : WcsCapabilities) : String :=
  "<wcs:Capability>\n" ++
  "    <wcs:Request>\n" ++
  "      <wcs:GetCapabilities>\n" ++
  "        <wcs:DCPType>\n" ++
  "          <wcs:HTTP>\n" ++
  "            <wcs:Get>\n" ++
  "              <wcs:OnlineResource xlink:href=\"" ++ c.base_url ++ "\"/>\n" ++
  "            </wcs:Get>\n" ++
  "          </wcs:HTTP>\n" ++
  "        </wcs:DCPType>\n" ++
  "      </wcs:GetCapabilities>\n" ++
  "      <wcs:DescribeCoverage>\n" ++
  "        <wcs:DCPType>\n" ++
  "          <wcs:HTTP>\n" ++
  "            <wcs:Get>\n" ++
  "              <wcs:OnlineResource xlink:href=\"" ++ c.base_url ++ "\"/>\n" ++
  "            </wcs:Get>\n" ++
  "          </wcs:HTTP>\n" ++
  "        </wcs:DCPType>\n" ++
  "      </wcs:DescribeCoverage>\n" ++
  "      <wcs:GetCoverage>\n" ++
  "        <wcs:DCPType>\n" ++
  "          <wcs:HTTP>\n" ++
  "            <wcs:Get>\n" ++
  "              <wcs:OnlineResource xlink:href=\"" ++ c.base_url ++ "\"/>\n" ++
  "            </wcs:Get>\n" ++
  "          </wcs:HTTP>\n" ++
  "        </wcs:DCPType>\n" ++
  "      </wcs:GetCoverage>\n" ++
  "    </wcs:Request>\n" ++
  "    <wcs:Exception>\n" ++
  "      <wcs:Format>application/vnd.ogc.se_xml</wcs:Format>\n" ++
  "    </wcs:Exception>\n" ++
  "  </wcs:Capability>\n  "

/-- One `<wcs:CoverageOfferingBrief>` of `Capabilities.contents` (WCS). -/
def coverageOfferingBriefXml (c : Coverage) : String :=
  let low := c.wgs84_bounding_box_lower_corner_lat_lon
  let up := c.wgs84_bounding_box_upper_corner_lat_lon
  "        <wcs:CoverageOfferingBrief>\n" ++
  (if c.abstract ≠ "" then
    "            <wcs:description>" ++ c.abstract ++ "</wcs:description>\n" else "") ++
  (if c.identifier ≠ "" then
    "            <wcs:name>" ++ c.identifier ++ "</wcs:name>\n" else "") ++
  (if c.title ≠ "" then
    "            <wcs:label>" ++ c.title ++ "</wcs:label>\n" else "") ++
  "            <wcs:lonLatEnvelope srsName=\"urn:ogc:def:crs:OGC:1.3:CRS84\">\n" ++
  "                <gml:pos>" ++ qstr low.2 ++ " " ++ qstr low.1 ++ "</gml:pos>\n" ++
  "                <gml:pos>" ++ qstr up.2 ++ " " ++ qstr up.1 ++ "</gml:pos>\n" ++
  "            </wcs:lonLatEnvelope>\n" ++
  "        </wcs:CoverageOfferingBrief>\n"

/-- `Capabilities.contents` (WCS); `limit_layers` is `False` under the
    repository settings, so the trimming branch never runs. -/
def WcsCapabilities.contentsXml (c : WcsCapabilities) : String :=
  "  <wcs:ContentMetadata>\n" ++
  String.join (c.coverages.map coverageOfferingBriefXml) ++
  "    </wcs:ContentMetadata>\n"

/-- `Capabilities.to_xml` (WCS). -/
def WcsCapabilities.toXml (c : WcsCapabilities) : String :=
  "<?xml version=\"1.0\" encoding=\"UTF-8\"?>\n" ++
  "<wcs:WCS_Capabilities\n" ++
  "xmlns:wcs=\"http://www.opengis.net/wcs\"\n" ++
  "xmlns:xlink=\"http://www.w3.org/1999/xlink\"\n" ++
  "xmlns:ogc=\"http://www.opengis.net/ogc\"\n" ++
  "xmlns:ows=\"http://www.opengis.net/ows/1.1\"\n" ++
  "xmlns:gml=\"http://www.opengis.net/gml\"\n" ++
  "xmlns:xsi=\"http://www.w3.org/2001/XMLSchema-instance\"\n" ++
  "xsi:schemaLocation=\"http://www.opengis.net/wcs http://schemas.opengis.net/wcs/1.0.0/wcsCapabilities.xsd\"\n" ++
  "version=\"1.0.0\">\n" ++
  c.serviceXml ++ "\n" ++
  c.capabilityXml ++ "\n" ++
  c.contentsXml ++ "\n" ++
  "</wcs:WCS_Capabilities>\n        "

/-- `settings.WMS_CRS` with its numeric extents pre-rendered the way
    `Capabilities._format_number` renders them (floats with nine decimals,
    ints plainly): key, minx, miny, maxx, maxy. -/
def WMS_CRS_extents : List (String × String × String × String × String) :=
  [("epsg:3857", "-20037508.342789244", "-20037508.342789244",
    "20037508.342789244", "20037508.342789244"),
   ("epsg:4326", "-90", "-180", "90", "180"),
   ("crs:84", "-180", "-90", "180", "90")]

/-- `n` copies of a string (Python `s * n`). -/
def strRepeat (s : String) (n : Nat) : String :=
  String.join (List.replicate n s)

/-- `Capabilities._get_CRS_and_BoundingBox` (WMS). -/
def wmsCRSAndBoundingBoxXml (depth : Nat) : String :=
  let indent := "    "
  (String.intercalate "\n"
    (WMS_CRS_extents.map fun e =>
      strRepeat indent depth ++ "<CRS>" ++ e.1.toUpper ++ "</CRS>") ++ "\n") ++
  String.intercalate "\n"
    [strRepeat indent depth ++ "<EX_GeographicBoundingBox>",
     strRepeat indent (depth + 1) ++ "<westBoundLongitude>-180</westBoundLongitude>",
     strRepeat indent (depth + 1) ++ "<eastBoundLongitude>180</eastBoundLongitude>",
     strRepeat indent (depth + 1) ++ "<southBoundLatitude>-90</southBoundLatitude>",
     strRepeat indent (depth + 1) ++ "<northBoundLatitude>90</northBoundLatitude>",
     strRepeat indent depth ++ "</EX_GeographicBoundingBox>"] ++
  String.intercalate "\n"
    (WMS_CRS_extents.map fun e =>
      strRepeat indent depth ++ "<BoundingBox CRS=\"" ++ e.1.toUpper ++
      "\"  minx=\"" ++ e.2.1 ++ "\" miny=\"" ++ e.2.2.1 ++
      "\" maxx=\"" ++ e.2.2.2.1 ++ "\" maxy=\"" ++ e.2.2.2.2 ++ "\"/>")

/-- `wms_response_1_3_0.Capabilities` state. -/
structure WmsCapabilities where
  coverages : List Coverage
  base_url : String
  service_title : String
  service_abstract : String
  service_group_title : String
deriving DecidableEq, Repr

/-- `Capabilities.service` (WMS). -/
def WmsCapabilities.serviceXml (c : WmsCapabilities) : String :=
  "    <Service>\n" ++
  "        <Name>WMS</Name>\n" ++
  "        <Title>" ++ c.service_title ++ "</Title>\n" ++
  "        <OnlineResource xlink:href=\"" ++ c.base_url ++ "\"/>\n" ++
  "        <AccessConstraints>" ++ CONSTRAINTS ++ "</AccessConstraints>\n" ++
  "        <LayerLimit>1</LayerLimit>\n" ++
  "        <MaxWidth>1024</MaxWidth>\n" ++
  "        <MaxHeight>1024</MaxHeight>\n" ++
  "    </Service>\n"

/-- `Capabilities.request` (WMS). -/
def WmsCapabilities.requestXml (c : WmsCapabilities) : String :=
  "    <Request>\n" ++
  "      <GetCapabilities>\n" ++
  "        <Format>text/xml</Format>\n" ++
  "        <DCPType>\n" ++
  "          <HTTP>\n" ++
  "            <Get>\n" ++
  "              <OnlineResource xlink:href=\"" ++ c.base_url ++ "\"/>\n" ++
  "            </Get>\n" ++
  "          </HTTP>\n" ++
  "        </DCPType>\n" ++
  "      </GetCapabilities>\n" ++
  "      <GetMap>\n" ++
  "        <Format>image/png</Format>\n" ++
  "        <DCPType>\n" ++
  "          <HTTP>\n" ++
  "            <Get>\n" ++
  "              <OnlineResource xlink:href=\"" ++ c.base_url ++ "\"/>\n" ++
  "            </Get>\n" ++
  "          </HTTP>\n" ++
  "        </DCPType>\n" ++
  "      </GetMap>\n" ++
  "    </Request>\n  "

/-- `Capabilities.exception` (WMS). -/
def wmsExceptionXml : String :=
  "    <Exception>\n" ++
  "      <Format>application/vnd.ogc.se_xml</Format>\n" ++
  "    </Exception>\n  "

/-- The `<Dimension name="TIME">` fragment of `Capabilities.layers` for one
    coverage, built exactly when the layer exposes a non-empty
    `valid_times` list. Under the repository settings `USE_TIMES_LIST` is
    `False`, so the emitted value is the `min/max/P3H` interval; the list
    branch (trailing `PAST_DAYS_INCLUDED` days) is kept for fidelity. -/
def wmsTimeDimensionXml (c : Coverage) : String :=
  match c.layer.valid_times with
  | none => ""
  | some ts =>
    if ts.length > 0 then
      let min_time := ts.headD { iso := "" }
      let max_time := ts.getLastD { iso := "" }
      let latest := ts.reverse.find? fun t => t.second = 0
      let default_time :=
        match latest with
        | some t => t
        | none => min_time
      let times_available_str :=
        if USE_TIMES_LIST then
          let display_times := ts.reverse.takeWhile fun t =>
            default_time.epochDays - t.epochDays < PAST_DAYS_INCLUDED
          String.intercalate ","
            (display_times.reverse.map fun t => t.iso ++ "Z")
        else
          min_time.iso ++ "Z/" ++ max_time.iso ++ "Z/P3H"
      "            <Dimension name=\"TIME\" units=\"ISO8601\" default=\"" ++
      default_time.iso ++ "Z\">" ++ times_available_str ++ "</Dimension>\n"
    else ""

/-- One `<Layer>` entry of `Capabilities.layers` (WMS). -/
def wmsLayerXml (base_url : String) (c : Coverage) : String :=
  let legend_link :=
    (if base_url.endsWith "?" then base_url else base_url ++ "?") ++
    "SERVICE=WMS&amp;VERSION=1.3.0&amp;REQUEST=GetLegendGraphic&amp;LAYER=" ++
    c.identifier ++ "&amp;STYLE=default&amp;FORMAT=image/png; mode=8bit"
  "       <Layer queryable=\"0\" opaque=\"0\" cascaded=\"1\">\n" ++
  (if c.identifier ≠ "" then
    "            <Name>" ++ c.identifier ++ "</Name>\n" else "") ++
  (if c.title ≠ "" then
    "            <Title>" ++ c.title ++ "</Title>\n" else "") ++
  (if c.abstract ≠ "" then
    "            <Abstract>" ++ c.abstract ++ "</Abstract>\n" else "") ++
  wmsCRSAndBoundingBoxXml 3 ++
  wmsTimeDimensionXml c ++
  "            <Style>\n" ++
  "                <Name>" ++ c.identifier ++ "</Name>\n" ++
  "                <Title>" ++ c.title ++ "</Title>\n" ++
  "                <LegendURL width=\"" ++ toString c.layer.legend_graphic_width ++
    "\" height=\"" ++ toString c.layer.legend_graphic_height ++ "\">\n" ++
  "                    <Format>image/png</Format>\n" ++
  "                    <OnlineResource xlink:type=\"simple\" xlink:href=\"" ++
    legend_link ++ "\"/>\n" ++
  "                </LegendURL>\n" ++
  "            </Style>\n" ++
  "        </Layer>\n"

/-- `Capabilities.layers` (WMS); `limit_layers` is `False` under the
    repository settings, so the trimming branch never runs. -/
def WmsCapabilities.layersXml (c : WmsCapabilities) : String :=
  "    <Layer>\n" ++
  "        <Title>" ++ c.service_group_title ++ "</Title>\n" ++
  wmsCRSAndBoundingBoxXml 2 ++
  String.join (c.coverages.map (wmsLayerXml c.base_url)) ++
  "    </Layer>"

/-- `Capabilities.to_xml` (WMS). -/
def WmsCapabilities.toXml (c : WmsCapabilities) : String :=
  "<?xml version=\"1.0\" encoding=\"UTF-8\"?>\n" ++
  "<WMS_Capabilities\n" ++
  "xmlns=\"http://www.opengis.net/wms\"\n" ++
  "xmlns:xlink=\"http://www.w3.org/1999/xlink\"\n" ++
  "xmlns:xsi=\"http://www.w3.org/2001/XMLSchema-instance\"\n" ++
  "xsi:schemaLocation=\"http://www.opengis.net/wms http://schemas.opengis.net/wms/1.3.0/capabilities_1_3_0.xsd\"\n" ++
  "version=\"1.3.0\">\n" ++
  c.serviceXml ++ "\n" ++
  "  <Capability>\n" ++
  c.requestXml ++ "\n" ++
  wmsExceptionXml ++ "\n" ++
  c.layersXml ++ "\n" ++
  "  </Capability>\n" ++
  "</WMS_Capabilities>\n        "

/-! ## The `OGC` dispatcher (`ogc/core.py`) -/

/-- What a handler returns: an XML string, or the `{"fp": ..., "fn": ...}`
    payload descriptor whose `fp` comes from the external Layer. -/
inductive Resp where
  | xml : String → Resp
  | file : (fp : String) → (fn : String) → Resp
deriving DecidableEq, Repr

/-- The mutable state of an `OGC` instance: the two capability documents
    built once in `OGC.__init__`. -/
structure OGCState where
  wcs_capabilities : WcsCapabilities
  wms_capabilities : WmsCapabilities
deriving DecidableEq, Repr

/-- The oracle type standing for an external `Layer` method: from the
    identifier of the looked-up coverage and the raw args to a payload. -/
def LayerFn : Type := String → Args → Except PyErr String

/-- The dispatcher pattern `try: ... load_from_kv ...; ... validate() except:
    raise WCSException(exception_text="Invalid arguments")` pattern: any
    failure of the wrapped computation — protocol exception or not — is
    replaced by the generic protocol exception. -/
def wrapLoad {α : Type} (r : Except PyErr α) : Except PyErr α :=
  match r with
  | Except.ok a => Except.ok a
  | Except.error _ =>
    Except.error (PyErr.wcs { exception_text := "Invalid arguments" })

/-- `OGC.get_coverage_from_id`: linear search over the registered coverage
    list, raising `InvalidParameterValue`/`COVERAGE` when no identifier
    matches. -/
def getCoverageFromId : List Coverage → Option String → Except PyErr Coverage
  | [], ident =>
    Except.error (PyErr.wcs
      { exception_code := "InvalidParameterValue"
        locator := "COVERAGE"
        exception_text := "Invalid coverage " ++ pyStrOpt ident })
  | c :: rest, ident =>
    if some c.identifier = ident then Except.ok c
    else getCoverageFromId rest ident

/-- `coverage.identifier.split(".")[-1]` -/
def identifierLeaf (s : String) : String :=
  (pySplitOnChar s '.').getLastD s

/-- The `"Unsupported version: %s"` message of both version gates. -/
def unsupportedVersionErr (v : Option String) : PyErr :=
  PyErr.wcs
    { exception_code := "InvalidParameterValue"
      locator := "VERSION"
      exception_text := "Unsupported version: " ++ pyStrOpt v }

/-- `get_coverage.identifier.value` (and `get_map.layer.value`,
    `get_legend_graphic.layer.value`): an `AttributeError` if the trait is
    still `None`. -/
def identValue (i : Option Identifier) : Except PyErr (Option String) :=
  match i with
  | some x => Except.ok x.value
  | none => Except.error (PyErr.attributeError "value")

/-- `OGC.handle_wcs_kv`. The `GetCapabilities` branch mutates the shared
    `base_url` of the shared capabilities document in place when the args carry a
    truthy override. The version gate reproduces the chained comparison of
    `core.py:91` — `if "version" in args["version"] == "1.0.0":` — which in
    Python means `("version" in args["version"]) and (args["version"] ==
    "1.0.0")`, a substring test on the version value itself. -/
def handle_wcs_kv (st : OGCState) (layerGetCoverage : LayerFn) (args : Args) :
    Except PyErr Resp × OGCState :=
  match args.get "request" with
  | Except.error e => (Except.error e, st)
  | Except.ok req =>
    if req = "GetCapabilities" then
      match wrapLoad (do
          let g ← WCSGetCapabilities.loadFromKV args
          g.validate) with
      | Except.error e => (Except.error e, st)
      | Except.ok _ =>
        match args.get "base_url" with
        | Except.error e => (Except.error e, st)
        | Except.ok bu =>
          let caps :=
            if bu ≠ "" then { st.wcs_capabilities with base_url := bu }
            else st.wcs_capabilities
          (Except.ok (Resp.xml caps.toXml), { st with wcs_capabilities := caps })
    else
      match args.get "version" with
      | Except.error e => (Except.error e, st)
      | Except.ok ver =>
        if strContains ver "version" && ver == "1.0.0" then
          if req = "DescribeCoverage" then
            match wrapLoad (do
                let d ← DescribeCoverage.loadFromKV args
                let _ ← d.validate
                pure d) with
            | Except.error e => (Except.error e, st)
            | Except.ok d =>
              match d.identifiers.mapM
                  (fun i => getCoverageFromId st.wcs_capabilities.coverages i.value) with
              | Except.error e => (Except.error e, st)
              | Except.ok covs =>
                (Except.ok (Resp.xml (coverageDescriptionXml covs)), st)
          else if req = "GetCoverage" then
            match wrapLoad (do
                let g ← GetCoverage.loadFromKV args
                let _ ← g.validate
                pure g) with
            | Except.error e => (Except.error e, st)
            | Except.ok gcv =>
              match identValue gcv.identifier with
              | Except.error e => (Except.error e, st)
              | Except.ok idv =>
                match getCoverageFromId st.wcs_capabilities.coverages idv with
                | Except.error e => (Except.error e, st)
                | Except.ok cov =>
                  if gcv.width = 0 then
                    (Except.error (PyErr.wcs
                      { exception_code := "InvalidParameterValue"
                        locator := "VERSION"
                        exception_text := "Grid coordinates x_size must be greater than 0" }), st)
                  else if gcv.height = 0 then
                    (Except.error (PyErr.wcs
                      { exception_code := "InvalidParameterValue"
                        locator := "VERSION"
                        exception_text := "Grid coordinates y_size must be greater than 0" }), st)
                  else if gcv.height * gcv.width > MAX_GRID_COORDS_REQUEST_SIZE then
                    (Except.error (PyErr.wcs
                      { exception_code := "InvalidParameterValue"
                        locator := "VERSION"
                        exception_text := "Grid coordinates x_size * y_size must be less than " ++
                          toString MAX_GRID_COORDS_REQUEST_SIZE }), st)
                  else
                    match layerGetCoverage cov.identifier args with
                    | Except.error e => (Except.error e, st)
                    | Except.ok fp =>
                      (Except.ok (Resp.file fp (identifierLeaf cov.identifier ++ ".tif")), st)
          else
            (Except.error (PyErr.wcs
              { exception_text := "KV Request not handled properly: " ++ pyReprArgs args }), st)
        else
          (Except.error (unsupportedVersionErr
            (if args.hasKey "version" then some ver else none)), st)

/-- `OGC.handle_wms_kv`. Mirrors the source: `GetCapabilities` (with the
    same in-place `base_url` mutation, on the WMS document),
    `GetFeatureInfo` rejected as `OperationNotSupported`, the (correct)
    membership-plus-equality version gate, then `getlegendgraphic` and
    `getmap` matched on the lower-cased request name. Coverage lookup runs
    against `wcs_capabilities.coverages`, as in the source. Only the
    `get_map` call is wrapped in a `try`/`except` (re-raised generic); the
    `get_legend_graphic` call is not. -/
def handle_wms_kv (st : OGCState) (layerGetMap layerGetLegendGraphic : LayerFn)
    (args : Args) : Except PyErr Resp × OGCState :=
  match args.get "request" with
  | Except.error e => (Except.error e, st)
  | Except.ok req =>
    if req = "GetCapabilities" then
      match wrapLoad (do
          let g ← WMSGetCapabilities.loadFromKV args
          g.validate) with
      | Except.error e => (Except.error e, st)
      | Except.ok _ =>
        match args.get "base_url" with
        | Except.error e => (Except.error e, st)
        | Except.ok bu =>
          let caps :=
            if bu ≠ "" then { st.wms_capabilities with base_url := bu }
            else st.wms_capabilities
          (Except.ok (Resp.xml caps.toXml), { st with wms_capabilities := caps })
    else if req = "GetFeatureInfo" then
      (Except.error (PyErr.wcs
        { exception_code := "OperationNotSupported"
          locator := "REQUEST"
          exception_text := "Unsupported request" }), st)
    else
      match List.lookup "version" args with
      | some ver =>
        if ver = "1.3.0" then
          if pyLower req = "getlegendgraphic" then
            match wrapLoad (do
                let g ← GetLegendGraphic.loadFromKV args
                let _ ← g.validate
                pure g) with
            | Except.error e => (Except.error e, st)
            | Except.ok g =>
              match identValue g.layer with
              | Except.error e => (Except.error e, st)
              | Except.ok idv =>
                match getCoverageFromId st.wcs_capabilities.coverages idv with
                | Except.error e => (Except.error e, st)
                | Except.ok cov =>
                  match layerGetLegendGraphic cov.identifier args with
                  | Except.error e => (Except.error e, st)
                  | Except.ok fp =>
                    (Except.ok (Resp.file fp (identifierLeaf cov.identifier ++ ".png")), st)
          else if pyLower req = "getmap" then
            match wrapLoad (do
                let m ← GetMap.loadFromKV args
                let _ ← m.validate
                pure m) with
            | Except.error e => (Except.error e, st)
            | Except.ok m =>
              match identValue m.layer with
              | Except.error e => (Except.error e, st)
              | Except.ok idv =>
                match getCoverageFromId st.wcs_capabilities.coverages idv with
                | Except.error e => (Except.error e, st)
                | Except.ok cov =>
                  if m.width = 0 then
                    (Except.error (PyErr.wcs
                      { exception_code := "InvalidParameterValue"
                        locator := "VERSION"
                        exception_text := "Grid coordinates x_size must be greater than 0" }), st)
                  else if m.height = 0 then
                    (Except.error (PyErr.wcs
                      { exception_code := "InvalidParameterValue"
                        locator := "VERSION"
                        exception_text := "Grid coordinates y_size must be greater than 0" }), st)
                  else if m.height * m.width > MAX_GRID_COORDS_REQUEST_SIZE then
                    (Except.error (PyErr.wcs
                      { exception_code := "InvalidParameterValue"
                        locator := "VERSION"
                        exception_text := "Grid coordinates x_size * y_size must be less than " ++
                          toString MAX_GRID_COORDS_REQUEST_SIZE }), st)
                  else
                    match wrapLoad (layerGetMap cov.identifier args) with
                    | Except.error e => (Except.error e, st)
                    | Except.ok fp =>
                      (Except.ok (Resp.file fp (identifierLeaf cov.identifier ++ ".png")), st)
          else
            (Except.error (PyErr.wcs
              { exception_text := "KV Request not handled properly: " ++ pyReprArgs args }), st)
        else (Except.error (unsupportedVersionErr (some ver)), st)
      | none => (Except.error (unsupportedVersionErr none), st)

/-- The construction-time configuration of `OGC` (trait defaults from
    `core.py`). -/
structure OGCConfig where
  endpoint : String := "/ogc"
  service_title : String := "OGC Server"
  service_abstract : String := "An example OGC Server"
  server_address : String := "http://127.0.0.1:5000"
  service_group_title : String := "Data Products"
deriving DecidableEq, Repr

/-- `OGC.base_url`. -/
def OGCConfig.base_url (c : OGCConfig) : String :=
  c.server_address ++ c.endpoint ++ "?"

/-- The `Coverage(layer=layer, title=layer.title, abstract=layer.abstract,
    identifier=layer.id_str)` record built in `OGC.__init__`. -/
def mkCoverage (l : Layer) : Coverage :=
  { layer := l, title := l.title, abstract := l.abstract, identifier := l.id_str }

/-- `OGC.__init__`: build both capability documents once from the
    registered layer list. -/
def OGC.init (layers : List Layer) (cfg : OGCConfig := {}) : OGCState :=
  let covs := layers.map mkCoverage
  { wcs_capabilities :=
      { coverages := covs
        base_url := cfg.base_url
        service_title := cfg.service_title
        service_abstract := cfg.service_abstract }
    wms_capabilities :=
      { coverages := covs
        base_url := cfg.base_url
        service_title := cfg.service_title
        service_abstract := cfg.service_abstract
        service_group_title := cfg.service_group_title } }

/-! ## Shared lemmas and concrete fixtures -/

deriving instance DecidableEq for Except

/-- The chained comparison `"version" in args["version"] == "1.0.0"` of
    `core.py:91` is false for every version value: when the value is
    `"1.0.0"` the substring test fails, and otherwise the equality does. -/
theorem wcs_version_gate_false (v : String) :
    (strContains v "version" && v == "1.0.0") = false := by
  by_cases h : v = "1.0.0"
  · subst h; decide
  · simp [h]

/-- `GetMap.validate` succeeds only with a present layer and non-zero
    width and height. -/
theorem getMap_validate_ok_facts (m : GetMap) (h : m.validate = Except.ok ()) :
    m.layer.isSome = true ∧ m.width ≠ 0 ∧ m.height ≠ 0 := by
  unfold GetMap.validate at h
  simp only [bind, Except.bind, pure, Except.pure] at h
  repeat' split at h
  all_goals simp_all

/-- `GetMap.validate` succeeds when its asserted fields are present, its
    sizes are non-zero and the bbox range test is quiet. -/
theorem getMap_validate_ok_of (m : GetMap) (bb : BoundingBox)
    (hs : m.service = some "WMS") (hl : m.layer.isSome = true)
    (hb : m.bbox = some bb) (hf : m.output_format.isSome = true)
    (hh : m.height ≠ 0) (hw : m.width ≠ 0)
    (hbb : wmsBBoxOutOfRange bb = false) : m.validate = Except.ok () := by
  unfold GetMap.validate
  simp [hs, hl, hb, hf, hh, hw, hbb, bind, Except.bind, pure, Except.pure]

/-- The unit box `(-1,-1),(1,1)` is inside the Web-Mercator extent. -/
theorem wmsBBoxOutOfRange_unitBox :
    wmsBBoxOutOfRange ⟨(-1, -1), (1, 1)⟩ = false := by
  have h1 := pyRound9_eq_self_of_grid (-1 : ℚ) (-1000000000) (by norm_num)
  have h2 := pyRound9_eq_self_of_grid (1 : ℚ) 1000000000 (by norm_num)
  simp only [wmsBBoxOutOfRange, List.any, h1, h2, WMS_BBOX_BOUND, Bool.or_eq_false_iff,
    decide_eq_false_iff_not, not_lt]
  norm_num

/-- `get_coverage_from_id` fails with `InvalidParameterValue`/`COVERAGE`
    when no registered coverage matches. -/
theorem getCoverageFromId_not_found (covs : List Coverage) (ident : Option String)
    (h : ∀ cv ∈ covs, some cv.identifier ≠ ident) :
    getCoverageFromId covs ident =
      Except.error (PyErr.wcs
        { exception_code := "InvalidParameterValue"
          locator := "COVERAGE"
          exception_text := "Invalid coverage " ++ pyStrOpt ident }) := by
  induction covs with
  | nil => rfl
  | cons cv rest ih =>
    have hcv : some cv.identifier ≠ ident := h cv (by simp)
    simp only [getCoverageFromId, if_neg hcv]
    exact ih fun c hc => h c (by simp [hc])

set_option maxHeartbeats 2000000 in
/-- A comma in the `time` value makes `GetCoverage._load_from_kv` fail. -/
theorem getCoverage_load_time_comma_fails (args : Args) (t : String)
    (ht : List.lookup "time" args = some t) (hc : strContains t "," = true) :
    ∀ g : GetCoverage, GetCoverage.loadFromKV args ≠ Except.ok g := by
  intro g hload
  unfold GetCoverage.loadFromKV at hload
  simp only [Args.get, Args.hasKey, ht, hc, bind, Except.bind, pure, Except.pure] at hload
  repeat' split at hload
  all_goals simp_all

set_option maxHeartbeats 4000000 in
/-- A comma in the `time` value makes `GetMap._load_from_kv` fail. -/
theorem getMap_load_time_comma_fails (args : Args) (t : String)
    (ht : List.lookup "time" args = some t) (hc : strContains t "," = true) :
    ∀ m : GetMap, GetMap.loadFromKV args ≠ Except.ok m := by
  intro m hload
  unfold GetMap.loadFromKV at hload
  simp only [Args.get, Args.hasKey, ht, hc, bind, Except.bind, pure, Except.pure] at hload
  iterate 8
    all_goals try simp_all
    all_goals try split at hload
  all_goals repeat' split at hload
  all_goals exact Except.noConfusion hload

/-- First registered example layer. -/
def layerOne : Layer := { identifier := "layer1" }

/-- Second registered example layer. -/
def layerTwo : Layer := { identifier := "layer2" }

/-- A dispatcher instance with two registered layers and default settings. -/
def twoLayerState : OGCState := OGC.init [layerOne, layerTwo]

/-- A layer oracle that always produces a payload. -/
def okLayerFn : LayerFn := fun _ _ => Except.ok "PAYLOAD"

/-! ## The claims -/

/-- C1: the spec says `handle_wcs_kv` requires `version = "1.0.0"` for
    non-GetCapabilities requests and then serves DescribeCoverage; but the
    chained comparison at `core.py:91` is false for every version value, so
    the dispatcher raises `InvalidParameterValue`/`VERSION` ("Unsupported
    version: 1.0.0") even for the two-coverage DescribeCoverage scenario of
    the spec, which therefore never returns a CoverageDescription document. -/
theorem C1_wcs_version_gate_rejects_all_versions :
    (∀ v : String, (strContains v "version" && v == "1.0.0") = false) ∧
    (handle_wcs_kv twoLayerState okLayerFn
        [("service", "WCS"), ("request", "DescribeCoverage"), ("version", "1.0.0"),
         ("coverage", "layer1,layer2"), ("base_url", "")]).1 =
      Except.error (PyErr.wcs
        { exception_text := "Unsupported version: 1.0.0"
          exception_code := "InvalidParameterValue"
          locator := "VERSION" }) :=
  ⟨wcs_version_gate_false, by decide⟩

/-- C2: the spec scenario (`GetMap` with `WIDTH=0`, `HEIGHT=10`) is
    expected to fail with `InvalidParameterValue` mentioning "x_size must
    be greater than 0"; in the code the `assert self.width` of
    `GetMap.validate` fails first inside the blanket `except:` of the
    dispatcher, so the request fails with the generic
    `NoApplicableCode`/"Invalid arguments" exception instead — before any
    Layer oracle is consulted (the result is the same for every oracle). -/
theorem C2_width_zero_yields_generic_error :
    ∀ gm gl : LayerFn,
      (handle_wms_kv twoLayerState gm gl
          [("service", "WMS"), ("request", "GetMap"), ("version", "1.3.0"),
           ("layers", "layer1"), ("bbox", "-1,-1,1,1"), ("crs", "EPSG:3857"),
           ("width", "0"), ("height", "10"), ("format", "image/png"),
           ("base_url", "")]).1 =
        Except.error (PyErr.wcs { exception_text := "Invalid arguments" }) := by
  intro gm gl
  rfl

/-- Arguments of a WCS GetCapabilities request carrying a `base_url`
    override. -/
def overrideCapArgs : Args :=
  [("service", "WCS"), ("request", "GetCapabilities"),
   ("base_url", "http://proxy/app?")]

/-- Arguments of a later WCS GetCapabilities request without an override. -/
def plainCapArgs : Args :=
  [("service", "WCS"), ("request", "GetCapabilities"), ("base_url", "")]

/-- The dispatcher state after serving the override request. -/
def afterOverrideState : OGCState :=
  (handle_wcs_kv twoLayerState okLayerFn overrideCapArgs).2

/-- C7: the claim says a `base_url` override is request-scoped; in the
    code the override is assigned into the shared capabilities document, so
    the stored `base_url` changes from the constructed
    `http://127.0.0.1:5000/ogc?` to the override, and a later
    GetCapabilities request without an override serializes from the mutated
    document (same state, overridden URL) instead of the original. -/
theorem C7_base_url_override_mutates_shared_state :
    twoLayerState.wcs_capabilities.base_url = "http://127.0.0.1:5000/ogc?" ∧
    afterOverrideState.wcs_capabilities.base_url = "http://proxy/app?" ∧
    (handle_wcs_kv afterOverrideState okLayerFn plainCapArgs).1 =
      Except.ok (Resp.xml afterOverrideState.wcs_capabilities.toXml) ∧
    (handle_wcs_kv afterOverrideState okLayerFn plainCapArgs).2 =
      afterOverrideState := by
  refine ⟨by decide, by decide, rfl, rfl⟩

/-- C9: for a `GridCoordinates` with geotransform
    `[origin_x, pixel_w, 0, origin_y, 0, pixel_h]` the corner formulas hold
    exactly — `min = origin` and `max = origin + pixel_size * size` for
    both axes, with `LLC`/`URC` built from them and no clamping or
    reordering: the sign of the pixel size alone decides whether the "max"
    corner lies above or below the origin. -/
theorem C9_gridCoordinates_corner_formulas (ox pw oy ph : ℚ) (x y : ℤ)
    (g : GridCoordinates)
    (hg : g = { x_size := x, y_size := y, geotransform := [ox, pw, 0, oy, 0, ph] }) :
    g.min_lon = ox ∧ g.max_lon = ox + pw * (x : ℚ) ∧
    g.min_lat = oy ∧ g.max_lat = oy + ph * (y : ℚ) ∧
    g.LLC = { lat := oy, lon := ox } ∧
    g.URC = { lat := oy + ph * (y : ℚ), lon := ox + pw * (x : ℚ) } ∧
    ((0 : ℤ) < x → (g.min_lon < g.max_lon ↔ 0 < pw)) ∧
    ((0 : ℤ) < y → (g.min_lat < g.max_lat ↔ 0 < ph)) := by
  subst hg
  refine ⟨rfl, rfl, rfl, rfl, rfl, rfl, ?_, ?_⟩
  · intro hx
    have hx' : (0 : ℚ) < (x : ℚ) := by exact_mod_cast hx
    show ox < ox + pw * (x : ℚ) ↔ 0 < pw
    constructor
    · intro h; nlinarith
    · intro h; nlinarith
  · intro hy
    have hy' : (0 : ℚ) < (y : ℚ) := by exact_mod_cast hy
    show oy < oy + ph * (y : ℚ) ↔ 0 < ph
    constructor
    · intro h; nlinarith
    · intro h; nlinarith

/-- C9 witness: the corner formulas evaluated on a concrete grid. -/
theorem C9_witness :
    let g : GridCoordinates :=
      { x_size := 100, y_size := 40, geotransform := [2, 1/2, 0, -3, 0, -(1/4)] }
    g.min_lon = 2 ∧ g.max_lon = 2 + 1/2 * ((100 : ℤ) : ℚ) ∧
    g.min_lat = -3 ∧ g.max_lat = -3 + -(1/4) * ((40 : ℤ) : ℚ) ∧
    g.LLC = { lat := -3, lon := 2 } ∧
    g.URC = { lat := -3 + -(1/4) * ((40 : ℤ) : ℚ), lon := 2 + 1/2 * ((100 : ℤ) : ℚ) } ∧
    ((0 : ℤ) < 100 → (g.min_lon < g.max_lon ↔ (0 : ℚ) < 1/2)) ∧
    ((0 : ℤ) < 40 → (g.min_lat < g.max_lat ↔ (0 : ℚ) < -(1/4))) :=
  C9_gridCoordinates_corner_formulas 2 (1/2) (-3) (-(1/4)) 100 40 _ rfl

set_option maxHeartbeats 4000000 in
/-- C4: on both the WCS and the WMS KV path, when the resolved CRS is the
    (case-insensitively lower-cased) alias `crs:84`, the stored CRS becomes
    `epsg:4326` and the bounding box is rebuilt with X and Y swapped in
    both corners: from parsed coordinates `x0,y0,x1,y1` the stored box is
    lower `(y0, x0)`, upper `(y1, x1)` — identically on both paths. -/
theorem C4_crs84_alias_swaps_axes :
    (∀ (args : Args) (c bs : String) (x0 y0 x1 y1 : ℚ) (g : GetCoverage),
      List.lookup "crs" args = some c → pyLower c = "crs:84" →
      List.lookup "bbox" args = some bs →
      pyFloatAt (pySplitOnChar (pyRemoveSpaces bs) ',') 0 = Except.ok x0 →
      pyFloatAt (pySplitOnChar (pyRemoveSpaces bs) ',') 1 = Except.ok y0 →
      pyFloatAt (pySplitOnChar (pyRemoveSpaces bs) ',') 2 = Except.ok x1 →
      pyFloatAt (pySplitOnChar (pyRemoveSpaces bs) ',') 3 = Except.ok y1 →
      GetCoverage.loadFromKV args = Except.ok g →
      g.crs = some "epsg:4326" ∧
      g.domain_subset_bbox =
        some { lower_corner := (y0, x0), upper_corner := (y1, x1) }) ∧
    (∀ (args : Args) (c bs : String) (x0 y0 x1 y1 : ℚ) (m : GetMap),
      List.lookup "crs" args = some c → pyLower c = "crs:84" →
      List.lookup "bbox" args = some bs →
      pyFloatAt (pySplitOnChar bs ',') 0 = Except.ok x0 →
      pyFloatAt (pySplitOnChar bs ',') 1 = Except.ok y0 →
      pyFloatAt (pySplitOnChar bs ',') 2 = Except.ok x1 →
      pyFloatAt (pySplitOnChar bs ',') 3 = Except.ok y1 →
      GetMap.loadFromKV args = Except.ok m →
      m.crs = some "epsg:4326" ∧
      m.bbox = some { lower_corner := (y0, x0), upper_corner := (y1, x1) }) := by
  constructor
  · intro args c bs x0 y0 x1 y1 g hc hlc hb h0 h1 h2 h3 hload
    unfold GetCoverage.loadFromKV at hload
    simp only [Args.get, Args.hasKey, hc, hb, h0, h1, h2, h3, bind, Except.bind,
      pure, Except.pure, hlc] at hload
    repeat' split at hload
    all_goals first
      | (cases hload; exact ⟨rfl, rfl⟩)
      | simp_all
  · intro args c bs x0 y0 x1 y1 m hc hlc hb h0 h1 h2 h3 hload
    unfold GetMap.loadFromKV at hload
    simp only [Args.get, Args.hasKey, hc, hb, h0, h1, h2, h3, bind, Except.bind,
      pure, Except.pure, hlc] at hload
    rcases hreq : List.lookup "request" args with _ | r
    · simp only [hreq] at hload
      exact Except.noConfusion hload
    · simp only [hreq] at hload
      by_cases hgm : pyLower r = "getmap"
      · rw [if_pos hgm] at hload
        repeat' split at hload
        all_goals first
          | (cases hload; exact ⟨rfl, rfl⟩)
          | exact Except.noConfusion hload
          | simp_all
      · rw [if_neg hgm] at hload
        exact Except.noConfusion hload

/-- The CRS:84 GetCoverage scenario arguments of the spec. -/
def crs84WcsArgs : Args :=
  [("service", "WCS"), ("request", "GetCoverage"), ("version", "1.0.0"),
   ("coverage", "layer1"), ("crs", "CRS:84"), ("bbox", "10,20,30,40"),
   ("format", "GeoTIFF"), ("width", "10"), ("height", "10")]

/-- The parsed record of the CRS:84 GetCoverage scenario. -/
def crs84WcsRecord : GetCoverage :=
  ⟨some "WCS", some "1.0.0", some ⟨some "layer1"⟩, some "epsg:4326",
   some ⟨(20, 10), (40, 30)⟩, none, some ⟨some "GeoTIFF"⟩, 10, 10⟩

/-- The CRS:84 GetMap scenario arguments. -/
def crs84WmsArgs : Args :=
  [("service", "WMS"), ("request", "GetMap"), ("version", "1.3.0"),
   ("layers", "layer1"), ("crs", "CRS:84"), ("bbox", "10,20,30,40"),
   ("format", "image/png"), ("width", "10"), ("height", "10")]

/-- The parsed record of the CRS:84 GetMap scenario. -/
def crs84WmsRecord : GetMap :=
  ⟨some "WMS", some "1.3.0", some ⟨some "layer1"⟩, some "epsg:4326",
   some ⟨(20, 10), (40, 30)⟩, 10, 10, none, some "image/png"⟩

/-- C4 witness: both swap conclusions at the concrete spec scenario. -/
theorem C4_witness :
    (crs84WcsRecord.crs = some "epsg:4326" ∧
     crs84WcsRecord.domain_subset_bbox =
       some { lower_corner := (20, 10), upper_corner := (40, 30) }) ∧
    (crs84WmsRecord.crs = some "epsg:4326" ∧
     crs84WmsRecord.bbox =
       some { lower_corner := (20, 10), upper_corner := (40, 30) }) :=
  ⟨C4_crs84_alias_swaps_axes.1 crs84WcsArgs "CRS:84" "10,20,30,40" 10 20 30 40
      crs84WcsRecord (by decide) (by decide) (by decide) (by decide) (by decide)
      (by decide) (by decide) (by decide),
   C4_crs84_alias_swaps_axes.2 crs84WmsArgs "CRS:84" "10,20,30,40" 10 20 30 40
      crs84WmsRecord (by decide) (by decide) (by decide) (by decide) (by decide)
      (by decide) (by decide) (by decide)⟩

/-- C8: `GetCoverage.validate` raises `InvalidParameterValue`/`BBOX`
    exactly when some longitude exceeds 361 or some latitude exceeds 91 in
    magnitude, and `GetMap.validate` raises the same exception exactly when
    some coordinate fails the Web-Mercator bound 20037508.342789244 — the
    code tests the coordinate rounded to nine decimals (round half to
    even), which on the 10^-9 grid coincides with the magnitude test the
    claim states. -/
theorem C8_bbox_bounds_validation :
    (∀ (g : GetCoverage) (bb : BoundingBox) (f : OutputFormat),
      g.service = some "WCS" → g.identifier.isSome = true →
      g.domain_subset_bbox = some bb →
      g.output_format = some f → pyTruthyOptStr f.value = true →
      g.height ≠ 0 → g.width ≠ 0 →
      g.validate =
        (if wcsBBoxOutOfRange bb then
          Except.error (PyErr.wcs
            { exception_code := "InvalidParameterValue"
              locator := "BBOX"
              exception_text := "longitude must be between -180 and +180, latitude must be between -90 and +90" })
        else Except.ok ())) ∧
    (∀ bb : BoundingBox,
      wcsBBoxOutOfRange bb = true ↔
        (|bb.lower_corner.1| > 361 ∨ |bb.upper_corner.1| > 361 ∨
         |bb.lower_corner.2| > 91 ∨ |bb.upper_corner.2| > 91)) ∧
    (∀ (m : GetMap) (bb : BoundingBox),
      m.service = some "WMS" → m.layer.isSome = true →
      m.bbox = some bb →
      m.output_format.isSome = true →
      m.height ≠ 0 → m.width ≠ 0 →
      m.validate =
        (if wmsBBoxOutOfRange bb then
          Except.error (PyErr.wcs
            { exception_code := "InvalidParameterValue"
              locator := "BBOX"
              exception_text := "minx,miny,maxx,maxy must all be between -20037508.342789244 and +20037508.342789244" })
        else Except.ok ())) ∧
    (∀ (bb : BoundingBox) (z0 z1 z2 z3 : ℤ),
      bb.lower_corner.1 * 10 ^ 9 = (z0 : ℚ) →
      bb.upper_corner.1 * 10 ^ 9 = (z1 : ℚ) →
      bb.lower_corner.2 * 10 ^ 9 = (z2 : ℚ) →
      bb.upper_corner.2 * 10 ^ 9 = (z3 : ℚ) →
      (wmsBBoxOutOfRange bb = true ↔
        (|bb.lower_corner.1| > WMS_BBOX_BOUND ∨ |bb.upper_corner.1| > WMS_BBOX_BOUND ∨
         |bb.lower_corner.2| > WMS_BBOX_BOUND ∨ |bb.upper_corner.2| > WMS_BBOX_BOUND))) := by
  refine ⟨?_, ?_, ?_, ?_⟩
  · intro g bb f hs hi hb hf hfv hh hw
    unfold GetCoverage.validate
    simp only [hs, hi, hb, hf, OutputFormat.validate, hfv, bind, Except.bind, pure,
      Except.pure, if_true, hh, hw, ite_true, if_pos]
    split <;> rfl
  · intro bb
    simp [wcsBBoxOutOfRange, or_assoc]
  · intro m bb hs hi hb hf hh hw
    unfold GetMap.validate
    simp only [hs, hi, hb, hf, bind, Except.bind, pure, Except.pure, if_true, hh, hw,
      ite_true]
    split <;> rfl
  · intro bb z0 z1 z2 z3 h0 h1 h2 h3
    simp [wmsBBoxOutOfRange, or_assoc,
      pyRound9_eq_self_of_grid _ _ h0, pyRound9_eq_self_of_grid _ _ h1,
      pyRound9_eq_self_of_grid _ _ h2, pyRound9_eq_self_of_grid _ _ h3]

/-- A GetCoverage record with an out-of-range longitude. -/
def wideLonRecord : GetCoverage :=
  ⟨some "WCS", some "1.0.0", some ⟨some "layer1"⟩, some "epsg:4326",
   some ⟨(400, 10), (30, 40)⟩, none, some ⟨some "GeoTIFF"⟩, 5, 5⟩

/-- A GetMap record with a coordinate beyond the Web-Mercator extent. -/
def wideMercRecord : GetMap :=
  ⟨some "WMS", some "1.3.0", some ⟨some "layer1"⟩, some "epsg:3857",
   some ⟨(20037509, 0), (0, 0)⟩, 5, 5, none, some "image/png"⟩

/-- C8 witness: the validate equations and range tests at concrete boxes. -/
theorem C8_witness :
    (wideLonRecord.validate =
      (if wcsBBoxOutOfRange ⟨(400, 10), (30, 40)⟩ then
        Except.error (PyErr.wcs
          { exception_code := "InvalidParameterValue"
            locator := "BBOX"
            exception_text := "longitude must be between -180 and +180, latitude must be between -90 and +90" })
      else Except.ok ())) ∧
    (wcsBBoxOutOfRange ⟨(400, 10), (30, 40)⟩ = true ↔
      (|(400 : ℚ)| > 361 ∨ |(30 : ℚ)| > 361 ∨ |(10 : ℚ)| > 91 ∨ |(40 : ℚ)| > 91)) ∧
    (wideMercRecord.validate =
      (if wmsBBoxOutOfRange ⟨(20037509, 0), (0, 0)⟩ then
        Except.error (PyErr.wcs
          { exception_code := "InvalidParameterValue"
            locator := "BBOX"
            exception_text := "minx,miny,maxx,maxy must all be between -20037508.342789244 and +20037508.342789244" })
      else Except.ok ())) ∧
    (wmsBBoxOutOfRange ⟨(20037509, 0), (0, 0)⟩ = true ↔
      (|(20037509 : ℚ)| > WMS_BBOX_BOUND ∨ |(0 : ℚ)| > WMS_BBOX_BOUND ∨
       |(0 : ℚ)| > WMS_BBOX_BOUND ∨ |(0 : ℚ)| > WMS_BBOX_BOUND)) :=
  ⟨C8_bbox_bounds_validation.1 wideLonRecord ⟨(400, 10), (30, 40)⟩ ⟨some "GeoTIFF"⟩
      rfl rfl rfl rfl (by decide) (by decide) (by decide),
   C8_bbox_bounds_validation.2.1 ⟨(400, 10), (30, 40)⟩,
   C8_bbox_bounds_validation.2.2.1 wideMercRecord ⟨(20037509, 0), (0, 0)⟩
      rfl rfl rfl rfl (by decide) (by decide),
   C8_bbox_bounds_validation.2.2.2 ⟨(20037509, 0), (0, 0)⟩
      20037509000000000 0 0 0 (by norm_num) (by norm_num) (by norm_num) (by norm_num)⟩

/-- Valid exact-casing GetLegendGraphic arguments. -/
def legendExactArgs : Args :=
  [("service", "WMS"), ("request", "GetLegendGraphic"), ("version", "1.3.0"),
   ("layer", "layer1"), ("base_url", "")]

/-- C10: WMS request-name dispatch is only partially case-insensitive:
    `handle_wms_kv` matches the lower-cased request name against
    `getlegendgraphic`, but `GetLegendGraphic._load_from_kv` asserts the
    exact spelling `GetLegendGraphic`, so any other casing falls into the
    blanket `except:` and produces the default `NoApplicableCode` /
    "Invalid arguments" exception; `GetMap` parsing, by contrast, is
    insensitive to the casing of the request name, and the exact spelling
    `GetLegendGraphic` parses fine. -/
theorem C10_legendgraphic_casing_mismatch :
    (∀ (st : OGCState) (gm gl : LayerFn) (args : Args) (r : String),
      List.lookup "request" args = some r →
      pyLower r = "getlegendgraphic" →
      r ≠ "GetLegendGraphic" →
      List.lookup "version" args = some "1.3.0" →
      (handle_wms_kv st gm gl args).1 =
        Except.error (PyErr.wcs { exception_text := "Invalid arguments" })) ∧
    (∀ (r : String) (rest : Args),
      pyLower r = "getmap" →
      GetMap.loadFromKV (("request", r) :: rest) =
        GetMap.loadFromKV (("request", "getmap") :: rest)) ∧
    (GetLegendGraphic.loadFromKV legendExactArgs =
      Except.ok ⟨some "WMS", none, none, some ⟨some "layer1"⟩, none⟩) := by
  refine ⟨?_, ?_, by decide⟩
  · intro st gm gl args r hr hlow hne hv
    have hne1 : r ≠ "GetCapabilities" := by
      intro h; rw [h] at hlow; exact absurd hlow (by decide)
    have hne2 : r ≠ "GetFeatureInfo" := by
      intro h; rw [h] at hlow; exact absurd hlow (by decide)
    have hload : GetLegendGraphic.loadFromKV args =
        Except.error (PyErr.assertionError r) := by
      unfold GetLegendGraphic.loadFromKV
      simp [Args.get, hr, bind, Except.bind, hne, throw, throwThe, MonadExceptOf.throw]
    unfold handle_wms_kv
    simp [Args.get, hr, hv, hne1, hne2, hlow, hload, wrapLoad, bind, Except.bind]
  · intro r rest hlow
    have hgm : pyLower "getmap" = "getmap" := by decide
    unfold GetMap.loadFromKV
    simp [Args.get, Args.hasKey, List.lookup, hlow, hgm, bind, Except.bind, pure,
      Except.pure, pyIntArg]

/-- C10 witness: both dispatch facts at concrete requests. -/
theorem C10_witness :
    (handle_wms_kv twoLayerState okLayerFn okLayerFn
        [("service", "WMS"), ("request", "getlegendgraphic"), ("version", "1.3.0"),
         ("layer", "layer1"), ("base_url", "")]).1 =
      Except.error (PyErr.wcs { exception_text := "Invalid arguments" }) ∧
    GetMap.loadFromKV [("request", "GETMAP"), ("service", "WMS")] =
      GetMap.loadFromKV [("request", "getmap"), ("service", "WMS")] :=
  ⟨C10_legendgraphic_casing_mismatch.1 twoLayerState okLayerFn okLayerFn _
      "getlegendgraphic" (by decide) (by decide) (by decide) (by decide),
   C10_legendgraphic_casing_mismatch.2.1 "GETMAP" [("service", "WMS")] (by decide)⟩

/-- C5: a request whose `width*height` exceeds
    `MAX_GRID_COORDS_REQUEST_SIZE` is rejected with `InvalidParameterValue`
    and the external Layer is never invoked: on the WMS GetMap path any
    otherwise-valid oversized request yields the size exception for every
    pair of Layer oracles, and on the WCS path every GetCoverage request is
    rejected with `InvalidParameterValue` at the version gate before the
    Layer could be reached. -/
theorem C5_oversized_grid_rejected :
    (∀ (st : OGCState) (gm gl : LayerFn) (args : Args) (r : String)
        (m : GetMap) (lid : Identifier) (cov : Coverage),
      List.lookup "request" args = some r → pyLower r = "getmap" →
      List.lookup "version" args = some "1.3.0" →
      GetMap.loadFromKV args = Except.ok m →
      m.validate = Except.ok () →
      m.layer = some lid →
      getCoverageFromId st.wcs_capabilities.coverages lid.value = Except.ok cov →
      m.height * m.width > MAX_GRID_COORDS_REQUEST_SIZE →
      (handle_wms_kv st gm gl args).1 =
        Except.error (PyErr.wcs
          { exception_code := "InvalidParameterValue"
            locator := "VERSION"
            exception_text := "Grid coordinates x_size * y_size must be less than " ++
              toString MAX_GRID_COORDS_REQUEST_SIZE })) ∧
    (∀ (st : OGCState) (f : LayerFn) (args : Args) (v : String),
      List.lookup "request" args = some "GetCoverage" →
      List.lookup "version" args = some v →
      (handle_wcs_kv st f args).1 =
        Except.error (PyErr.wcs
          { exception_code := "InvalidParameterValue"
            locator := "VERSION"
            exception_text := "Unsupported version: " ++ v })) := by
  constructor
  · intro st gm gl args r m lid cov hr hlow hv hload hval hlid hcov hbig
    obtain ⟨-, hw, hh⟩ := getMap_validate_ok_facts m hval
    have hne1 : r ≠ "GetCapabilities" := by
      intro h; rw [h] at hlow; exact absurd hlow (by decide)
    have hne2 : r ≠ "GetFeatureInfo" := by
      intro h; rw [h] at hlow; exact absurd hlow (by decide)
    have hnelg : ¬(pyLower r = "getlegendgraphic") := by rw [hlow]; decide
    unfold handle_wms_kv
    simp [Args.get, hr, hv, hne1, hne2, hnelg, hlow, hload, hval, wrapLoad, bind,
      Except.bind, pure, Except.pure, identValue, hlid, hcov, hw, hh, hbig]
  · intro st f args v hr hv
    unfold handle_wcs_kv
    simp [Args.get, Args.hasKey, hr, hv, wcs_version_gate_false v, pyStrOpt,
      unsupportedVersionErr, bind, Except.bind]

/-- Oversized (2000×1000) GetMap arguments. -/
def oversizeArgs : Args :=
  [("service", "WMS"), ("request", "GetMap"), ("version", "1.3.0"),
   ("layers", "layer1"), ("bbox", "-1,-1,1,1"), ("crs", "EPSG:3857"),
   ("width", "2000"), ("height", "1000"), ("format", "image/png"),
   ("base_url", "")]

/-- The parsed record of the oversized GetMap request. -/
def oversizeRecord : GetMap :=
  ⟨some "WMS", some "1.3.0", some ⟨some "layer1"⟩, some "epsg:3857",
   some ⟨(-1, -1), (1, 1)⟩, 2000, 1000, none, some "image/png"⟩

/-- C5 witness: the size rejection at a concrete 2000 by 1000 request. -/
theorem C5_witness :
    (handle_wms_kv twoLayerState okLayerFn okLayerFn oversizeArgs).1 =
      Except.error (PyErr.wcs
        { exception_code := "InvalidParameterValue"
          locator := "VERSION"
          exception_text := "Grid coordinates x_size * y_size must be less than " ++
            toString MAX_GRID_COORDS_REQUEST_SIZE }) ∧
    (handle_wcs_kv twoLayerState okLayerFn
        [("service", "WCS"), ("request", "GetCoverage"), ("version", "1.0.0"),
         ("coverage", "layer1"), ("crs", "EPSG:4326"), ("bbox", "10,20,30,40"),
         ("format", "GeoTIFF"), ("width", "2000"), ("height", "1000"),
         ("base_url", "")]).1 =
      Except.error (PyErr.wcs
        { exception_code := "InvalidParameterValue"
          locator := "VERSION"
          exception_text := "Unsupported version: " ++ "1.0.0" }) :=
  ⟨C5_oversized_grid_rejected.1 twoLayerState okLayerFn okLayerFn oversizeArgs
      "GetMap" oversizeRecord ⟨some "layer1"⟩ (mkCoverage layerOne)
      (by decide) (by decide) (by decide) (by decide)
      (getMap_validate_ok_of oversizeRecord ⟨(-1, -1), (1, 1)⟩ rfl rfl rfl rfl
        (by decide) (by decide) wmsBBoxOutOfRange_unitBox)
      (by decide) (by rfl) (by decide),
   C5_oversized_grid_rejected.2 twoLayerState okLayerFn _ "1.0.0"
      (by decide) (by decide)⟩

set_option maxHeartbeats 1000000 in
/-- C6: the claim says every unknown coverage/layer identifier fails with
    `InvalidParameterValue`/`COVERAGE` before any Layer call, with
    `get_coverage_from_id` a linear search. The lookup itself and both WMS
    paths behave exactly so (the result is oracle-independent), but on the
    WCS path the broken version gate of `core.py:91` raises
    `InvalidParameterValue`/`VERSION` before the lookup can run, so a WCS
    DescribeCoverage request naming an unknown coverage never reaches the
    `COVERAGE` locator. -/
theorem C6_unknown_coverage_lookup :
    (∀ (covs : List Coverage) (ident : Option String),
      (∀ cv ∈ covs, some cv.identifier ≠ ident) →
      getCoverageFromId covs ident =
        Except.error (PyErr.wcs
          { exception_code := "InvalidParameterValue"
            locator := "COVERAGE"
            exception_text := "Invalid coverage " ++ pyStrOpt ident })) ∧
    (∀ (cv : Coverage) (covs : List Coverage) (ident : Option String),
      getCoverageFromId (cv :: covs) ident =
        if some cv.identifier = ident then Except.ok cv
        else getCoverageFromId covs ident) ∧
    (∀ (st : OGCState) (gm gl : LayerFn) (args : Args) (r : String)
        (m : GetMap) (lid : Identifier),
      List.lookup "request" args = some r → pyLower r = "getmap" →
      List.lookup "version" args = some "1.3.0" →
      GetMap.loadFromKV args = Except.ok m → m.validate = Except.ok () →
      m.layer = some lid →
      (∀ cv ∈ st.wcs_capabilities.coverages, some cv.identifier ≠ lid.value) →
      (handle_wms_kv st gm gl args).1 =
        Except.error (PyErr.wcs
          { exception_code := "InvalidParameterValue"
            locator := "COVERAGE"
            exception_text := "Invalid coverage " ++ pyStrOpt lid.value })) ∧
    (∀ (st : OGCState) (gm gl : LayerFn) (args : Args)
        (g : GetLegendGraphic) (lid : Identifier),
      List.lookup "request" args = some "GetLegendGraphic" →
      List.lookup "version" args = some "1.3.0" →
      GetLegendGraphic.loadFromKV args = Except.ok g → g.validate = Except.ok () →
      g.layer = some lid →
      (∀ cv ∈ st.wcs_capabilities.coverages, some cv.identifier ≠ lid.value) →
      (handle_wms_kv st gm gl args).1 =
        Except.error (PyErr.wcs
          { exception_code := "InvalidParameterValue"
            locator := "COVERAGE"
            exception_text := "Invalid coverage " ++ pyStrOpt lid.value })) ∧
    ((handle_wcs_kv twoLayerState okLayerFn
        [("service", "WCS"), ("request", "DescribeCoverage"), ("version", "1.0.0"),
         ("coverage", "nosuch"), ("base_url", "")]).1 =
      Except.error (PyErr.wcs
        { exception_text := "Unsupported version: 1.0.0"
          exception_code := "InvalidParameterValue"
          locator := "VERSION" })) := by
  refine ⟨getCoverageFromId_not_found, ?_, ?_, ?_, by decide⟩
  · intro cv covs ident
    rfl
  · intro st gm gl args r m lid hr hlow hv hload hval hlid hnf
    have hne1 : r ≠ "GetCapabilities" := by
      intro h; rw [h] at hlow; exact absurd hlow (by decide)
    have hne2 : r ≠ "GetFeatureInfo" := by
      intro h; rw [h] at hlow; exact absurd hlow (by decide)
    have hnelg : ¬(pyLower r = "getlegendgraphic") := by rw [hlow]; decide
    have hcov := getCoverageFromId_not_found st.wcs_capabilities.coverages lid.value hnf
    unfold handle_wms_kv
    simp [Args.get, hr, hv, hne1, hne2, hnelg, hlow, hload, hval, wrapLoad, bind,
      Except.bind, pure, Except.pure, identValue, hlid, hcov]
  · intro st gm gl args g lid hr hv hload hval hlid hnf
    have hcov := getCoverageFromId_not_found st.wcs_capabilities.coverages lid.value hnf
    have hlg : pyLower "GetLegendGraphic" = "getlegendgraphic" := by decide
    unfold handle_wms_kv
    simp [Args.get, hr, hv, hload, hval, wrapLoad, bind, Except.bind, pure,
      Except.pure, identValue, hlid, hcov, hlg]

/-- GetMap arguments naming an unregistered layer. -/
def unknownLayerArgs : Args :=
  [("service", "WMS"), ("request", "GetMap"), ("version", "1.3.0"),
   ("layers", "nosuch"), ("bbox", "-1,-1,1,1"), ("crs", "EPSG:3857"),
   ("width", "20"), ("height", "10"), ("format", "image/png"), ("base_url", "")]

/-- The parsed record of the unknown-layer GetMap request. -/
def unknownLayerRecord : GetMap :=
  ⟨some "WMS", some "1.3.0", some ⟨some "nosuch"⟩, some "epsg:3857",
   some ⟨(-1, -1), (1, 1)⟩, 20, 10, none, some "image/png"⟩

/-- C6 witness: the unknown-identifier failures at concrete inputs. -/
theorem C6_witness :
    getCoverageFromId twoLayerState.wcs_capabilities.coverages (some "nosuch") =
      Except.error (PyErr.wcs
        { exception_code := "InvalidParameterValue"
          locator := "COVERAGE"
          exception_text := "Invalid coverage " ++ pyStrOpt (some "nosuch") }) ∧
    (handle_wms_kv twoLayerState okLayerFn okLayerFn unknownLayerArgs).1 =
      Except.error (PyErr.wcs
        { exception_code := "InvalidParameterValue"
          locator := "COVERAGE"
          exception_text := "Invalid coverage " ++
            pyStrOpt (Identifier.mk (some "nosuch")).value }) :=
  ⟨C6_unknown_coverage_lookup.1 twoLayerState.wcs_capabilities.coverages
      (some "nosuch") (by decide),
   C6_unknown_coverage_lookup.2.2.1 twoLayerState okLayerFn okLayerFn
      unknownLayerArgs "GetMap" unknownLayerRecord ⟨some "nosuch"⟩
      (by decide) (by decide) (by decide) (by decide)
      (getMap_validate_ok_of unknownLayerRecord ⟨(-1, -1), (1, 1)⟩ rfl rfl rfl rfl
        (by decide) (by decide) wmsBBoxOutOfRange_unitBox)
      (by decide) (by decide)⟩

/-- Otherwise-valid WCS GetCoverage arguments whose time holds two values. -/
def wcsCommaTimeArgs : Args :=
  [("service", "WCS"), ("request", "GetCoverage"), ("version", "1.0.0"),
   ("coverage", "layer1"), ("crs", "EPSG:4326"), ("bbox", "10,20,30,40"),
   ("format", "GeoTIFF"), ("width", "10"), ("height", "10"),
   ("time", "2020-01-01T00:00:00,2020-01-02T00:00:00"), ("base_url", "")]

/-- Otherwise-valid WMS GetMap arguments whose time holds two values. -/
def wmsCommaTimeArgs : Args :=
  [("service", "WMS"), ("request", "GetMap"), ("version", "1.3.0"),
   ("layers", "layer1"), ("bbox", "-1,-1,1,1"), ("crs", "EPSG:3857"),
   ("width", "20"), ("height", "10"), ("format", "image/png"),
   ("time", "2020-01-01T00:00:00,2020-01-02T00:00:00"), ("base_url", "")]

/-- C3 counterexample: with otherwise-valid fields and a comma in `time`,
    the dispatcher raises the generic `NoApplicableCode` exception with
    empty locator on the WMS path (the parser assertion is swallowed by the
    blanket `except:`), and `InvalidParameterValue`/`VERSION` on the WCS
    path (the version gate rejects first) — not the claimed
    `InvalidParameterValue`/`TIME`. -/
theorem C3_counterexample_dispatcher_wraps_time_error :
    (handle_wms_kv twoLayerState okLayerFn okLayerFn wmsCommaTimeArgs).1 =
      Except.error (PyErr.wcs
        { exception_text := "Invalid arguments"
          exception_code := "NoApplicableCode"
          locator := "" }) ∧
    (handle_wcs_kv twoLayerState okLayerFn wcsCommaTimeArgs).1 =
      Except.error (PyErr.wcs
        { exception_text := "Unsupported version: 1.0.0"
          exception_code := "InvalidParameterValue"
          locator := "VERSION" }) :=
  ⟨by decide, by decide⟩

/-- C3 amended: a comma in `time` always makes the request fail, but the
    specific `InvalidParameterValue`/`TIME` protocol exception exists only
    at the WCS parser level (`GetCoverage._load_from_kv`); the parse always
    fails with a comma in `time`, and through the dispatcher the WMS path
    uniformly reports the generic "Invalid arguments" exception for every
    Layer oracle. -/
theorem C3_time_comma_resolved :
    (GetCoverage.loadFromKV wcsCommaTimeArgs =
      Except.error (PyErr.wcs
        { exception_code := "InvalidParameterValue"
          locator := "TIME"
          exception_text := "Only one time value per request is supported. Please specify a single timestamp (e.g. TIME=2016-01-31T00:00:00.000Z)" })) ∧
    (∀ (args : Args) (t : String),
      List.lookup "time" args = some t → strContains t "," = true →
      ∀ g : GetCoverage, GetCoverage.loadFromKV args ≠ Except.ok g) ∧
    (∀ (st : OGCState) (gm gl : LayerFn) (args : Args) (r t : String),
      List.lookup "request" args = some r → pyLower r = "getmap" →
      List.lookup "version" args = some "1.3.0" →
      List.lookup "time" args = some t → strContains t "," = true →
      (handle_wms_kv st gm gl args).1 =
        Except.error (PyErr.wcs { exception_text := "Invalid arguments" })) := by
  refine ⟨by decide, getCoverage_load_time_comma_fails, ?_⟩
  intro st gm gl args r t hr hlow hv ht hc
  have hne1 : r ≠ "GetCapabilities" := by
    intro h; rw [h] at hlow; exact absurd hlow (by decide)
  have hne2 : r ≠ "GetFeatureInfo" := by
    intro h; rw [h] at hlow; exact absurd hlow (by decide)
  have hnelg : ¬(pyLower r = "getlegendgraphic") := by rw [hlow]; decide
  rcases hres : GetMap.loadFromKV args with e | m
  · unfold handle_wms_kv
    simp [Args.get, hr, hv, hne1, hne2, hnelg, hlow, hres, wrapLoad, bind, Except.bind]
  · exact absurd hres (getMap_load_time_comma_fails args t ht hc m)

/-- C3 witness: the amended facts at the concrete comma-time requests. -/
theorem C3_witness :
    (GetCoverage.loadFromKV wcsCommaTimeArgs ≠ Except.ok crs84WcsRecord) ∧
    (handle_wms_kv twoLayerState okLayerFn okLayerFn wmsCommaTimeArgs).1 =
      Except.error (PyErr.wcs { exception_text := "Invalid arguments" }) :=
  ⟨C3_time_comma_resolved.2.1 wcsCommaTimeArgs "2020-01-01T00:00:00,2020-01-02T00:00:00"
      (by decide) (by decide) crs84WcsRecord,
   C3_time_comma_resolved.2.2 twoLayerState okLayerFn okLayerFn wmsCommaTimeArgs
      "GetMap" "2020-01-01T00:00:00,2020-01-02T00:00:00"
      (by decide) (by decide) (by decide) (by decide) (by decide)⟩
